import Mathlib

/-!
# Verification of the diet-tracking bulking-coach decision engine

Shallow embedding of the weight-trend analysis and diet-adjustment engine
(`app/services/coach.py`), the Pollock-7/Siri body-composition estimator
(`app/services/body_fat.py`) and the skinfold gating helper of the body-log
router (`app/routers/body_logs.py`).

Conventions:
* Python floats are modelled as exact rationals (`ℚ`).
* Calendar dates and timestamps are modelled as integers (day numbers);
  `timedelta(days = n)` becomes subtraction of `n`.
* Python `round(x, n)` (round-half-to-even) is modelled exactly by `roundTo`.
* The database collaborators are modelled by their outputs: `check_stagnation`
  receives the fetched, date-descending list of body logs and the active plan
  (or `none`); `apply_suggestion` / `dismiss_suggestion` receive the active
  plan (or `none`) and return the updated plan row.
* Human-readable message strings are abstracted to the `CoachMessage` enum
  (each branch of the source produces a distinct fixed message template).
-/

namespace DietCoach

/-- Python `round` to an integer: round half to even (banker's rounding). -/
def roundHalfEven (x : ℚ) : ℤ :=
  let f : ℤ := ⌊x⌋
  let r : ℚ := x - (f : ℚ)
  if r < 1/2 then f
  else if 1/2 < r then f + 1
  else if f % 2 = 0 then f else f + 1

/-- Python `round(x, n)`: round to `n` decimal places, half to even. -/
def roundTo (n : ℕ) (x : ℚ) : ℚ :=
  ((roundHalfEven (x * (10 : ℚ) ^ n) : ℚ)) / (10 : ℚ) ^ n

/-- Python `round(x, 1)`. -/
abbrev round1 (x : ℚ) : ℚ := roundTo 1 x

/-- Python `round(x, 2)`. -/
abbrev round2 (x : ℚ) : ℚ := roundTo 2 x

/-- Python `round(x, 3)`. -/
abbrev round3 (x : ℚ) : ℚ := roundTo 3 x

/-- Python `round(x, 6)`. -/
abbrev round6 (x : ℚ) : ℚ := roundTo 6 x

/-- Python `statistics.mean` of a list of numbers: sum divided by length. -/
def listMean (l : List ℚ) : ℚ := l.sum / (l.length : ℚ)

/-- One row of the `body_logs` table (the fields the coach engine and the
body-fat estimator read).  `date` is a day number; optional measurements are
`Option ℚ`. -/
structure BodyLog where
  date : ℤ
  weight_kg : ℚ
  bio_body_fat_percent : Option ℚ := none
  circ_waist : Option ℚ := none
  circ_arm_contracted_right : Option ℚ := none
  circ_arm_relaxed_right : Option ℚ := none
  skinfold_chest : Option ℚ := none
  skinfold_axillary : Option ℚ := none
  skinfold_triceps : Option ℚ := none
  skinfold_subscapular : Option ℚ := none
  skinfold_suprailiac : Option ℚ := none
  skinfold_abdominal : Option ℚ := none
  skinfold_thigh : Option ℚ := none
deriving DecidableEq, Repr

/-- One row of the `diet_plans` table (the fields the coach engine touches,
plus the remaining macro targets so frame conditions can be stated). -/
structure DietPlan where
  target_calories : ℚ
  target_protein : ℚ := 0
  target_carbs : ℚ
  target_fat : ℚ := 0
  is_active : Bool := true
  last_coach_adjustment_at : Option ℤ := none
  last_coach_anchor_date : Option ℤ := none
  last_coach_w_curr : Option ℚ := none
  last_coach_w_prev : Option ℚ := none
deriving DecidableEq, Repr

/-- The four analysis states of the tri-state (calories-first) classifier. -/
inductive AnalysisState where
  | weight_loss
  | slow_gain
  | optimal
  | high_velocity
deriving DecidableEq, Repr

/-- Identity of the human-readable message attached to an analysis result:
either the fixed message template of the freshly classified state, or the
"adjustment already applied, awaiting new data" suppression message. -/
inductive CoachMessage where
  | classified (s : AnalysisState)
  | alreadyAdjusted
deriving DecidableEq, Repr

/-- Identity of a stop-condition reason string appended to `cutting_reasons`. -/
inductive CuttingReason where
  | waistArmDivergence
  | bodyFatCeiling
deriving DecidableEq, Repr

/-- Failure modes of the coach operations (`ValueError` variants in the
source, distinguished by their messages). -/
inductive CoachError where
  | insufficientData
  | insufficientPriorData
  | noActivePlan
deriving DecidableEq, Repr

/-- The analysis result dictionary built by `check_stagnation`. -/
structure AnalysisResult where
  current_week_avg_weight : ℚ
  previous_week_avg_weight : ℚ
  weight_change_kg : ℚ
  anchor_date : ℤ
  anchor_weight_kg : ℚ
  weekly_rate : ℚ
  monthly_projection : ℚ
  weeks_elapsed : ℚ
  analysis_state : AnalysisState
  suggest_cutting : Bool
  cutting_reasons : List CuttingReason
  current_body_fat_percent : Option ℚ
  waist_change_cm : Option ℚ
  arm_change_cm : Option ℚ
  is_stagnating : Bool
  message : CoachMessage
  suggested_calorie_adjustment : Option ℚ
  suggested_carb_adjustment_g : Option ℚ
  new_target_calories : Option ℚ
  new_target_carbs : Option ℚ
  current_carbs_g : Option ℚ
  current_carbs_per_kg : Option ℚ
  suggested_carbs_g : Option ℚ
  suggested_carbs_per_kg : Option ℚ
  current_calories : Option ℚ
  suggested_calories : Option ℚ
deriving DecidableEq, Repr

/-! ## Thresholds (module-level constants of `coach.py`) -/

/-- Constant `WINDOW_DAYS = 6`. -/
def WINDOW_DAYS : ℤ := 6

/-- Constant `RATE_MIN_FLOOR = 0.125` kg/week. -/
def RATE_MIN_FLOOR : ℚ := 0.125

/-- Constant `RATE_MAX_CEILING = 0.375` kg/week. -/
def RATE_MAX_CEILING : ℚ := 0.375

/-- Constant `WAIST_GROWTH_THRESHOLD_CM = 0.5`. -/
def WAIST_GROWTH_THRESHOLD_CM : ℚ := 0.5

/-- Constant `ARM_GROWTH_THRESHOLD_CM = 0.1`. -/
def ARM_GROWTH_THRESHOLD_CM : ℚ := 0.1

/-- Constant `BODY_FAT_CEILING_PERCENT = 20.0`. -/
def BODY_FAT_CEILING_PERCENT : ℚ := 20

/-! ## Tri-state classifier -/

/-- Function `_classify_weekly_rate`: returns `(state, message, calorie_adjustment,
carb_adjustment)`, with the message abstracted to its template identity. -/
def _classify_weekly_rate (weekly_rate : ℚ) :
    AnalysisState × CoachMessage × ℚ × ℚ :=
  if weekly_rate < 0 then
    (.weight_loss, .classified .weight_loss, 500, 125)
  else if weekly_rate < RATE_MIN_FLOOR then
    (.slow_gain, .classified .slow_gain, 250, 62.5)
  else if weekly_rate ≤ RATE_MAX_CEILING then
    (.optimal, .classified .optimal, 0, 0)
  else
    (.high_velocity, .classified .high_velocity, -250, -62.5)

/-- Test `state in ("weight_loss", "slow_gain", "high_velocity")`. -/
def stateNeedsAdjustment : AnalysisState → Bool
  | .optimal => false
  | _ => true

/-! ## Measurement scans (stop conditions) -/

/-- Python's `a or b` on two optional floats: `a` when it is present and
truthy (non-zero), otherwise `b`.  A present value of `0.0` is falsy in
Python and falls through to `b`. -/
def pyOr (a b : Option ℚ) : Option ℚ :=
  match a with
  | some x => if x = 0 then b else some x
  | none => b

/-- The per-window scan loop of `_get_measurement_changes`: walk the
date-descending log list, record the first waist and the first arm value
(`circ_arm_contracted_right or circ_arm_relaxed_right`) among logs selected
by `inW`, and break as soon as both are known. -/
def measScan (inW : BodyLog → Bool) :
    List BodyLog → Option ℚ → Option ℚ → Option ℚ × Option ℚ
  | [], waist, arm => (waist, arm)
  | log :: rest, waist, arm =>
    let waist' :=
      if inW log ∧ waist = none ∧ log.circ_waist ≠ none then log.circ_waist
      else waist
    let arm' :=
      if inW log ∧ arm = none then
        match pyOr log.circ_arm_contracted_right log.circ_arm_relaxed_right with
        | some v => some v
        | none => arm
      else arm
    if waist' ≠ none ∧ arm' ≠ none then (waist', arm')
    else measScan inW rest waist' arm'

/-- The current-window membership test used by the measurement scan
(`log.date >= curr_window_start`; no upper bound is needed since the anchor
is the maximal date). -/
def inCurrWindow (curr_window_start : ℤ) : BodyLog → Bool :=
  fun log => decide (curr_window_start ≤ log.date)

/-- The previous-window membership test used by the measurement scan
(`prev_window_start <= log.date <= t_prev`). -/
def inPrevWindow (prev_window_start t_prev : ℤ) : BodyLog → Bool :=
  fun log => decide (prev_window_start ≤ log.date) && decide (log.date ≤ t_prev)

/-- Function `_get_measurement_changes`: waist and arm circumference change between
the current window (`date ≥ curr_window_start`) and the previous window
(`prev_window_start ≤ date ≤ t_prev`).  Returns `none` for a change whenever
either window lacks the metric. -/
def _get_measurement_changes (all_logs : List BodyLog)
    (curr_window_start prev_window_start t_prev : ℤ) :
    Option ℚ × Option ℚ :=
  let curr := measScan (inCurrWindow curr_window_start) all_logs none none
  let prev := measScan (inPrevWindow prev_window_start t_prev) all_logs none none
  let waist_change :=
    match curr.1, prev.1 with
    | some cw, some pw => some (cw - pw)
    | _, _ => none
  let arm_change :=
    match curr.2, prev.2 with
    | some ca, some pa => some (ca - pa)
    | _, _ => none
  (waist_change, arm_change)

/-- Function `_get_latest_body_fat`: first non-null `bio_body_fat_percent` scanning
the (date-descending) logs front to back. -/
def _get_latest_body_fat : List BodyLog → Option ℚ
  | [] => none
  | log :: rest =>
    match log.bio_body_fat_percent with
    | some v => some v
    | none => _get_latest_body_fat rest

/-- Option fallback: the first operand when present, the second otherwise
(used to express the early-break scan as a declarative first-match). -/
def or1 (x y : Option ℚ) : Option ℚ :=
  match x with
  | some v => some v
  | none => y

/-- Declarative reading of the waist scan: the first non-null `circ_waist`
among the logs satisfying `inW`, scanning front to back (newest first). -/
def firstWaistIn (inW : BodyLog → Bool) : List BodyLog → Option ℚ
  | [] => none
  | log :: rest =>
    if inW log then
      match log.circ_waist with
      | some v => some v
      | none => firstWaistIn inW rest
    else firstWaistIn inW rest

/-- Declarative reading of the arm scan: the first log in `inW` whose
truthy arm value (`contracted-right or relaxed-right`, Python `or`
semantics: a contracted value of `0.0` falls through to relaxed) is
present. -/
def firstArmIn (inW : BodyLog → Bool) : List BodyLog → Option ℚ
  | [] => none
  | log :: rest =>
    if inW log then
      match pyOr log.circ_arm_contracted_right log.circ_arm_relaxed_right with
      | some v => some v
      | none => firstArmIn inW rest
    else firstArmIn inW rest

/-- The arm value as the spec's claim literally words it: the first
non-null value, preferring contracted-right over relaxed-right (no
truthiness: a contracted value of `0.0` is taken). -/
def claimArmValue (log : BodyLog) : Option ℚ :=
  match log.circ_arm_contracted_right with
  | some v => some v
  | none => log.circ_arm_relaxed_right

/-- First log in the window with a non-null claim-level arm value. -/
def claimFirstArmIn (inW : BodyLog → Bool) : List BodyLog → Option ℚ
  | [] => none
  | log :: rest =>
    if inW log then
      match claimArmValue log with
      | some v => some v
      | none => claimFirstArmIn inW rest
    else claimFirstArmIn inW rest

/-- Step D decision: the waist-vs-arm divergence stop condition fires when
both changes are available, the waist grew by more than `0.5` cm and the
arm grew by at most `0.1` cm. -/
def waistArmStop (all_logs : List BodyLog)
    (curr_window_start prev_window_start t_prev : ℤ) : Bool :=
  let changes := _get_measurement_changes all_logs curr_window_start
    prev_window_start t_prev
  match changes.1, changes.2 with
  | some wc, some ac =>
    decide (wc > WAIST_GROWTH_THRESHOLD_CM) &&
    decide (ac ≤ ARM_GROWTH_THRESHOLD_CM)
  | _, _ => false

/-- Step E decision: the body-fat ceiling stop condition fires when the
most recent bio-impedance reading exceeds `20%`. -/
def bodyFatStop (all_logs : List BodyLog) : Bool :=
  match _get_latest_body_fat all_logs with
  | some bf => decide (bf > BODY_FAT_CEILING_PERCENT)
  | none => false

/-! ## Window selection helpers (step A of `check_stagnation`) -/

/-- Logs of the current window `[t_curr − 6d, t_curr]`. -/
def currWindowLogs (all_logs : List BodyLog) (t_curr : ℤ) : List BodyLog :=
  all_logs.filter (fun log =>
    decide (t_curr - WINDOW_DAYS ≤ log.date) && decide (log.date ≤ t_curr))

/-- Logs of the previous window `[t_prev − 6d, t_prev]`. -/
def prevWindowLogs (all_logs : List BodyLog) (t_prev : ℤ) : List BodyLog :=
  all_logs.filter (fun log =>
    decide (t_prev - WINDOW_DAYS ≤ log.date) && decide (log.date ≤ t_prev))

/-- Average `w_curr`: mean weight over the current window anchored at `t_curr`. -/
def wCurrOf (all_logs : List BodyLog) (t_curr : ℤ) : ℚ :=
  listMean ((currWindowLogs all_logs t_curr).map (·.weight_kg))

/-- Average `w_prev`: mean weight over the previous window anchored at `t_prev`. -/
def wPrevOf (all_logs : List BodyLog) (t_prev : ℤ) : ℚ :=
  listMean ((prevWindowLogs all_logs t_prev).map (·.weight_kg))

/-- Step A3: the first log (in the given date-descending order) dated
strictly before the current window. -/
def findPrevAnchor (all_logs : List BodyLog) (curr_window_start : ℤ) :
    Option BodyLog :=
  all_logs.find? (fun log => decide (log.date < curr_window_start))

/-- Normalization `weeks_elapsed = max(days_between / 7, 1.0)`. -/
def weeksElapsed (t_curr t_prev : ℤ) : ℚ :=
  max (((t_curr - t_prev : ℤ) : ℚ) / 7) 1

/-- The (unrounded) normalized weekly rate of step B, given the anchor and
previous-anchor dates. -/
def rawWeeklyRate (all_logs : List BodyLog) (t_curr t_prev : ℤ) : ℚ :=
  (wCurrOf all_logs t_curr - wPrevOf all_logs t_prev) / weeksElapsed t_curr t_prev

/-- The "already adjusted" fingerprint test: the plan carries an adjustment
timestamp and both stored averages, and the freshly computed averages match
the stored pair after rounding to 2 decimals. -/
def alreadyAdjustedFlag (active_plan : Option DietPlan) (w_curr w_prev : ℚ) :
    Bool :=
  match active_plan with
  | none => false
  | some plan =>
    match plan.last_coach_adjustment_at with
    | none => false
    | some _ =>
      match plan.last_coach_w_curr, plan.last_coach_w_prev with
      | some saved_w_curr, some saved_w_prev =>
        decide (round2 w_curr = round2 saved_w_curr) &&
        decide (round2 w_prev = round2 saved_w_prev)
      | _, _ => false

/-- All ten suggestion fields set to `None` (`_empty_suggestion_fields`),
merged into a result record. -/
def withEmptySuggestions (r : AnalysisResult) : AnalysisResult :=
  { r with
    suggested_calorie_adjustment := none
    suggested_carb_adjustment_g := none
    new_target_calories := none
    new_target_carbs := none
    current_carbs_g := none
    current_carbs_per_kg := none
    suggested_carbs_g := none
    suggested_carbs_per_kg := none
    current_calories := none
    suggested_calories := none }

/-- Result assembly of `check_stagnation` after both anchors are known:
steps B–E plus the fingerprint suppression and suggestion-field population.
`anchor` is the head of `all_logs`, `prev_anchor` the first log strictly
before the current window. -/
def buildResult (all_logs : List BodyLog) (active_plan : Option DietPlan)
    (anchor prev_anchor : BodyLog) : AnalysisResult :=
  let t_curr := anchor.date
  let curr_window_start := t_curr - WINDOW_DAYS
  let w_curr := wCurrOf all_logs t_curr
  let t_prev := prev_anchor.date
  let prev_window_start := t_prev - WINDOW_DAYS
  let w_prev := wPrevOf all_logs t_prev
  let weeks_elapsed := weeksElapsed t_curr t_prev
  let weekly_rate := rawWeeklyRate all_logs t_curr t_prev
  let monthly_projection := weekly_rate * 4
  let already_adjusted := alreadyAdjustedFlag active_plan w_curr w_prev
  let classified := _classify_weekly_rate weekly_rate
  let state := classified.1
  let message := classified.2.1
  let calorie_adjustment := classified.2.2.1
  let carb_adjustment := classified.2.2.2
  let changes := _get_measurement_changes all_logs curr_window_start
      prev_window_start t_prev
  let waist_change := changes.1
  let arm_change := changes.2
  let waistArmFires := waistArmStop all_logs curr_window_start
    prev_window_start t_prev
  let current_body_fat := _get_latest_body_fat all_logs
  let bodyFatFires := bodyFatStop all_logs
  let suggest_cutting := waistArmFires || bodyFatFires
  let cutting_reasons :=
    (if waistArmFires then [CuttingReason.waistArmDivergence] else []) ++
    (if bodyFatFires then [CuttingReason.bodyFatCeiling] else [])
  let current_calories :=
    match active_plan with
    | some plan => plan.target_calories
    | none => 0
  let current_carbs_total :=
    match active_plan with
    | some plan => plan.target_carbs
    | none => 0
  let anchor_weight := w_curr
  let suggested_calories := round1 (current_calories + calorie_adjustment)
  let suggested_carbs_total := round1 (current_carbs_total + carb_adjustment)
  let current_carbs_per_kg :=
    if anchor_weight > 0 then round2 (current_carbs_total / anchor_weight) else 0
  let suggested_carbs_per_kg :=
    if anchor_weight > 0 then round2 (suggested_carbs_total / anchor_weight) else 0
  let base : AnalysisResult :=
    { current_week_avg_weight := round2 w_curr
      previous_week_avg_weight := round2 w_prev
      weight_change_kg := round2 (w_curr - w_prev)
      anchor_date := t_curr
      anchor_weight_kg := round2 anchor.weight_kg
      weekly_rate := round3 weekly_rate
      monthly_projection := round3 monthly_projection
      weeks_elapsed := round1 weeks_elapsed
      analysis_state := state
      suggest_cutting := suggest_cutting
      cutting_reasons := cutting_reasons
      current_body_fat_percent :=
        match current_body_fat with
        | some bf => some (round1 bf)
        | none => none
      waist_change_cm :=
        match waist_change with
        | some wc => some (round1 wc)
        | none => none
      arm_change_cm :=
        match arm_change with
        | some ac => some (round1 ac)
        | none => none
      is_stagnating := false
      message := message
      suggested_calorie_adjustment := none
      suggested_carb_adjustment_g := none
      new_target_calories := none
      new_target_carbs := none
      current_carbs_g := none
      current_carbs_per_kg := none
      suggested_carbs_g := none
      suggested_carbs_per_kg := none
      current_calories := none
      suggested_calories := none }
  if already_adjusted ∧ stateNeedsAdjustment state then
    withEmptySuggestions { base with is_stagnating := false, message := .alreadyAdjusted }
  else
    let needs_adjustment := stateNeedsAdjustment state
    if needs_adjustment ∧ calorie_adjustment ≠ 0 then
      { base with
        is_stagnating := needs_adjustment
        message := message
        suggested_calorie_adjustment := some (round1 calorie_adjustment)
        suggested_carb_adjustment_g := some (round1 carb_adjustment)
        current_carbs_g := some (round1 current_carbs_total)
        current_carbs_per_kg := some current_carbs_per_kg
        suggested_carbs_g := some suggested_carbs_total
        suggested_carbs_per_kg := some suggested_carbs_per_kg
        current_calories := some (round1 current_calories)
        suggested_calories := some suggested_calories
        new_target_calories :=
          if active_plan.isSome then some suggested_calories else none
        new_target_carbs :=
          if active_plan.isSome then some suggested_carbs_total else none }
    else
      withEmptySuggestions { base with is_stagnating := needs_adjustment, message := message }

/-- Function `check_stagnation`: the analyze operation.  Takes the fetched logs
(date descending, most recent first) and the active plan (or `none`). -/
def check_stagnation (all_logs : List BodyLog)
    (active_plan : Option DietPlan) : Except CoachError AnalysisResult :=
  if all_logs.length < 2 then .error .insufficientData
  else
    match all_logs with
    | [] => .error .insufficientData
    | anchor :: _ =>
      match findPrevAnchor all_logs (anchor.date - WINDOW_DAYS) with
      | none => .error .insufficientPriorData
      | some prev_anchor => .ok (buildResult all_logs active_plan anchor prev_anchor)

/-! ## Apply / dismiss -/

/-- Function `dismiss_suggestion`: record the fingerprint on the active plan without
touching the targets.  `now` is the wall-clock timestamp.  Returns the
updated plan row (the source returns `None` but mutates exactly this row). -/
def dismiss_suggestion (active_plan : Option DietPlan) (w_curr w_prev : ℚ)
    (now : ℤ) : Except CoachError DietPlan :=
  match active_plan with
  | none => .error .noActivePlan
  | some plan =>
    .ok { plan with
      last_coach_adjustment_at := some now
      last_coach_w_curr := some (round2 w_curr)
      last_coach_w_prev := some (round2 w_prev) }

/-- Function `apply_suggestion`: add the deltas to the active plan's targets, record
the fingerprint and the current anchor date (date of the user's most recent
body log, when one exists).  `all_logs` is the user's date-descending log
list (the anchor query selects its maximal date). -/
def apply_suggestion (active_plan : Option DietPlan)
    (calorie_adjustment carb_adjustment_g w_curr w_prev : ℚ) (now : ℤ)
    (all_logs : List BodyLog) : Except CoachError DietPlan :=
  match active_plan with
  | none => .error .noActivePlan
  | some plan =>
    let plan := { plan with
      target_calories := round1 (plan.target_calories + calorie_adjustment)
      target_carbs := round1 (plan.target_carbs + carb_adjustment_g)
      last_coach_adjustment_at := some now
      last_coach_w_curr := some (round2 w_curr)
      last_coach_w_prev := some (round2 w_prev) }
    match all_logs.head? with
    | some anchor_log => .ok { plan with last_coach_anchor_date := some anchor_log.date }
    | none => .ok plan

/-! ## Body-composition estimator (`body_fat.py`, router gating) -/

/-- Function `calculate_body_density_pollock_7` (male Jackson–Pollock equation). -/
def calculate_body_density_pollock_7 (sum_of_skinfolds_mm : ℚ)
    (age_years : ℚ) : ℚ :=
  round6 (1.112 - 0.00043499 * sum_of_skinfolds_mm
    + 0.00000055 * sum_of_skinfolds_mm * sum_of_skinfolds_mm
    - 0.00028826 * age_years)

/-- Function `body_density_to_fat_percent` (Siri equation, clamped to `[0, 60]`,
guarding non-positive density). -/
def body_density_to_fat_percent (body_density : ℚ) : ℚ :=
  if body_density ≤ 0 then 0
  else round2 (max 0 (min (495 / body_density - 450) 60))

/-- Function `calculate_body_fat_from_skinfolds`: returns
`(sum_of_skinfolds, body_density, body_fat_percent)`. -/
def calculate_body_fat_from_skinfolds
    (chest axillary triceps subscapular suprailiac abdominal thigh : ℚ)
    (age_years : ℚ) : ℚ × ℚ × ℚ :=
  let sum_of_skinfolds := chest + axillary + triceps + subscapular
    + suprailiac + abdominal + thigh
  let body_density := calculate_body_density_pollock_7 sum_of_skinfolds age_years
  let body_fat_percent := body_density_to_fat_percent body_density
  (round2 sum_of_skinfolds, body_density, body_fat_percent)

/-- Function `_log_has_all_skinfolds`: all seven skinfold sites are non-null. -/
def _log_has_all_skinfolds (log : BodyLog) : Bool :=
  log.skinfold_chest.isSome && log.skinfold_axillary.isSome &&
  log.skinfold_triceps.isSome && log.skinfold_subscapular.isSome &&
  log.skinfold_suprailiac.isSome && log.skinfold_abdominal.isSome &&
  log.skinfold_thigh.isSome

/-- The router's per-log enrichment: when all seven skinfolds are present,
compute `(body_density, body_fat_percent)` with the default reference age
of 25; otherwise the estimate is silently absent. -/
def computeLogBodyFat (log : BodyLog) : Option (ℚ × ℚ) :=
  match log.skinfold_chest, log.skinfold_axillary, log.skinfold_triceps,
      log.skinfold_subscapular, log.skinfold_suprailiac,
      log.skinfold_abdominal, log.skinfold_thigh with
  | some chest, some axillary, some triceps, some subscapular,
      some suprailiac, some abdominal, some thigh =>
    let r := calculate_body_fat_from_skinfolds chest axillary triceps
      subscapular suprailiac abdominal thigh 25
    some (r.2.1, r.2.2)
  | _, _, _, _, _, _, _ => none

/-! ## Supporting definitions (result accessors and concrete data sets) -/

/-- Date of the most recent fetched log (head of the date-descending list);
`0` for an empty fetch (never consulted in that case). -/
def anchorDateOf (logs : List BodyLog) : ℤ :=
  match logs with
  | [] => 0
  | a :: _ => a.date

/-- The plan's current calorie target as read by the result assembly
(`0` when no plan is active). -/
def currentCaloriesOf : Option DietPlan → ℚ
  | some plan => plan.target_calories
  | none => 0

/-- The plan's current carb target as read by the result assembly. -/
def currentCarbsOf : Option DietPlan → ℚ
  | some plan => plan.target_carbs
  | none => 0

/-- Concrete body log with the given date and weight, all measurements
absent. -/
def exLog (d : ℤ) (w : ℚ) : BodyLog := { date := d, weight_kg := w }

/-- Two steady-weight logs ten days apart. -/
def logsPair : List BodyLog := [exLog 20 75, exLog 10 75]

/-- A plan whose fingerprint matches the `logsPair` analysis. -/
def planFp : DietPlan :=
  { target_calories := 3000
    target_carbs := 400
    last_coach_adjustment_at := some 5
    last_coach_w_curr := some 75
    last_coach_w_prev := some 75 }

/-- Current-window log of the C8 counterexample: waist 90 cm, contracted
arm 30 cm. -/
def logC1 : BodyLog :=
  { date := 20, weight_kg := 75, circ_waist := some 90,
    circ_arm_contracted_right := some 30 }

/-- Previous-window log of the C8 counterexample: waist 89 cm, contracted
arm recorded as 0.0 (Python-falsy), relaxed arm 29.95 cm. -/
def logC2 : BodyLog :=
  { date := 10, weight_kg := 74, circ_waist := some 89,
    circ_arm_contracted_right := some 0,
    circ_arm_relaxed_right := some 29.95 }

/-- C8 counterexample data set. -/
def logsC : List BodyLog := [logC1, logC2]

/-- A fresh active plan with no fingerprint. -/
def planStart : DietPlan := { target_calories := 3000, target_carbs := 400 }

/-- The plan after applying the `slow_gain` suggestion (+250 kcal,
+62.5 g) for the `logsPair` analysis, fingerprint `(75, 75)`. -/
def planApplied : DietPlan :=
  { target_calories := round1 (3000 + 250)
    target_carbs := round1 (400 + 62.5)
    last_coach_adjustment_at := some 30
    last_coach_anchor_date := some 20
    last_coach_w_curr := some (round2 75)
    last_coach_w_prev := some (round2 75) }

/-- Data set `logsPair` plus a newly inserted, more recent log that changes the
current-window average. -/
def logsB : List BodyLog := exLog 21 76 :: logsPair

/-- The plan produced by applying the `logsPair` suggestion with the
analysis's reported window averages (the exact record `apply` writes). -/
def p1W : DietPlan :=
  { target_calories := round1 (planStart.target_calories + 250)
    target_protein := planStart.target_protein
    target_carbs := round1 (planStart.target_carbs + 62.5)
    target_fat := planStart.target_fat
    is_active := planStart.is_active
    last_coach_adjustment_at := some 30
    last_coach_anchor_date := some (exLog 20 75).date
    last_coach_w_curr := some (round2 (buildResult logsPair (some planStart)
      (exLog 20 75) (exLog 10 75)).current_week_avg_weight)
    last_coach_w_prev := some (round2 (buildResult logsPair (some planStart)
      (exLog 20 75) (exLog 10 75)).previous_week_avg_weight) }

/-! ## Rounding infrastructure -/

theorem roundHalfEven_intCast (k : ℤ) : roundHalfEven (k : ℚ) = k := by
  unfold roundHalfEven
  simp [Int.floor_intCast]

theorem roundHalfEven_zero : roundHalfEven 0 = 0 := by
  have h : ((0 : ℤ) : ℚ) = 0 := by norm_num
  rw [← h, roundHalfEven_intCast]

theorem roundTo_zero (n : ℕ) : roundTo n 0 = 0 := by
  unfold roundTo
  rw [zero_mul, roundHalfEven_zero]
  norm_num

theorem roundTo_roundTo (n : ℕ) (x : ℚ) : roundTo n (roundTo n x) = roundTo n x := by
  unfold roundTo
  rw [div_mul_cancel₀ _ (by positivity : ((10 : ℚ) ^ n) ≠ 0), roundHalfEven_intCast]

/-- A value that is already an exact multiple of `10^(−n)` is unchanged by
`round(·, n)`. -/
theorem roundTo_eq_self (n : ℕ) (x : ℚ) (k : ℤ)
    (hk : x * (10 : ℚ) ^ n = (k : ℚ)) : roundTo n x = x := by
  unfold roundTo
  rw [hk, roundHalfEven_intCast, ← hk,
    mul_div_cancel_right₀ _ (by positivity : ((10 : ℚ) ^ n) ≠ 0)]

/-! ## C1: the tri-state classifier -/

/-- Claim C1. The tri-state classifier is pure and total on ℚ: it returns
`weight_loss` with deltas `(+500, +125)` exactly when `rate < 0`,
`slow_gain` with `(+250, +62.5)` exactly when `0 ≤ rate < 0.125` (so a rate
of exactly `0` yields `slow_gain`), `optimal` with `(0, 0)` exactly when
`0.125 ≤ rate ≤ 0.375` (both boundaries inclusive), and `high_velocity`
with `(−250, −62.5)` exactly when `rate > 0.375`; the four cases are
mutually exclusive and exhaustive. -/
theorem classify_weekly_rate_cases (r : ℚ) :
    (r < 0 →
      _classify_weekly_rate r = (.weight_loss, .classified .weight_loss, 500, 125)) ∧
    (0 ≤ r → r < 0.125 →
      _classify_weekly_rate r = (.slow_gain, .classified .slow_gain, 250, 62.5)) ∧
    (0.125 ≤ r → r ≤ 0.375 →
      _classify_weekly_rate r = (.optimal, .classified .optimal, 0, 0)) ∧
    (0.375 < r →
      _classify_weekly_rate r = (.high_velocity, .classified .high_velocity, -250, -62.5)) ∧
    _classify_weekly_rate 0 = (.slow_gain, .classified .slow_gain, 250, 62.5) ∧
    ((_classify_weekly_rate r).1 = .weight_loss ↔ r < 0) ∧
    ((_classify_weekly_rate r).1 = .slow_gain ↔ 0 ≤ r ∧ r < 0.125) ∧
    ((_classify_weekly_rate r).1 = .optimal ↔ 0.125 ≤ r ∧ r ≤ 0.375) ∧
    ((_classify_weekly_rate r).1 = .high_velocity ↔ 0.375 < r) := by
  have h1 : ∀ x : ℚ, x < 0 →
      _classify_weekly_rate x = (.weight_loss, .classified .weight_loss, 500, 125) := by
    intro x hx
    unfold _classify_weekly_rate
    rw [if_pos hx]
  have h2 : ∀ x : ℚ, 0 ≤ x → x < 0.125 →
      _classify_weekly_rate x = (.slow_gain, .classified .slow_gain, 250, 62.5) := by
    intro x hx0 hx
    unfold _classify_weekly_rate RATE_MIN_FLOOR
    rw [if_neg (not_lt.mpr hx0), if_pos hx]
  have h3 : ∀ x : ℚ, 0.125 ≤ x → x ≤ 0.375 →
      _classify_weekly_rate x = (.optimal, .classified .optimal, 0, 0) := by
    intro x hx0 hx
    unfold _classify_weekly_rate RATE_MIN_FLOOR RATE_MAX_CEILING
    rw [if_neg (not_lt.mpr (le_trans (by norm_num) hx0)),
      if_neg (not_lt.mpr hx0), if_pos hx]
  have h4 : ∀ x : ℚ, 0.375 < x →
      _classify_weekly_rate x =
        (.high_velocity, .classified .high_velocity, -250, -62.5) := by
    intro x hx
    unfold _classify_weekly_rate RATE_MIN_FLOOR RATE_MAX_CEILING
    rw [if_neg (not_lt.mpr (le_of_lt (lt_trans (by norm_num) hx))),
      if_neg (not_lt.mpr (le_trans (by norm_num) (le_of_lt hx))),
      if_neg (not_le.mpr hx)]
  refine ⟨h1 r, h2 r, h3 r, h4 r, h2 0 le_rfl (by norm_num), ?_, ?_, ?_, ?_⟩
  · constructor
    · intro h
      by_contra hge
      push_neg at hge
      rcases lt_or_le r 0.125 with hx | hx
      · rw [h2 r hge hx] at h
        simp at h
      rcases le_or_lt r 0.375 with hy | hy
      · rw [h3 r hx hy] at h
        simp at h
      · rw [h4 r hy] at h
        simp at h
    · intro h
      rw [h1 r h]
  · constructor
    · intro h
      by_contra hn
      push_neg at hn
      rcases lt_or_le r 0 with hx | hx
      · rw [h1 r hx] at h
        simp at h
      have hge := hn hx
      rcases le_or_lt r 0.375 with hy | hy
      · rw [h3 r hge hy] at h
        simp at h
      · rw [h4 r hy] at h
        simp at h
    · intro h
      rw [h2 r h.1 h.2]
  · constructor
    · intro h
      by_contra hn
      push_neg at hn
      rcases lt_or_le r 0 with hx | hx
      · rw [h1 r hx] at h
        simp at h
      rcases lt_or_le r 0.125 with hy | hy
      · rw [h2 r hx hy] at h
        simp at h
      · rw [h4 r (hn hy)] at h
        simp at h
    · intro h
      rw [h3 r h.1 h.2]
  · constructor
    · intro h
      by_contra hn
      push_neg at hn
      rcases lt_or_le r 0 with hx | hx
      · rw [h1 r hx] at h
        simp at h
      rcases lt_or_le r 0.125 with hy | hy
      · rw [h2 r hx hy] at h
        simp at h
      · rw [h3 r hy hn] at h
        simp at h
    · intro h
      rw [h4 r h]

/-- Witness for C1 at concrete rates in each band. -/
theorem classify_weekly_rate_cases_witness :
    _classify_weekly_rate (1/4) = (.optimal, .classified .optimal, 0, 0) :=
  (classify_weekly_rate_cases (1/4)).2.2.1 (by norm_num) (by norm_num)

/-! ## C9: body-composition estimator -/

theorem body_density_to_fat_percent_eq (d : ℚ) :
    body_density_to_fat_percent d = round2 (max 0 (min (495 / d - 450) 60)) := by
  unfold body_density_to_fat_percent
  split_ifs with h
  · have h45 : 495 / d - 450 ≤ 0 := by
      rcases lt_or_eq_of_le h with h0 | h0
      · have : 495 / d < 0 := div_neg_of_pos_of_neg (by norm_num) h0
        linarith
      · subst h0
        norm_num
    have hmin : min (495 / d - 450) 60 = 495 / d - 450 :=
      min_eq_left (by linarith)
    have hmax : max (0 : ℚ) (495 / d - 450) = 0 := max_eq_left h45
    rw [hmin, hmax]
    exact (roundTo_zero 2).symm
  · rfl

/-- Claim C9. When all seven skinfolds are present, the estimator computes
`S` = the sum of the seven values,
`density = round(1.112 − 0.00043499·S + 0.00000055·S² − 0.00028826·25, 6)`
(age fixed at 25) and
`fat_percent = round(clamp(495/density − 450, 0, 60), 2)`; when any
skinfold is absent, the estimate is silently absent (`none`), with no
error. -/
theorem pollock7_estimator_spec (log : BodyLog) :
    (∀ c ax tr sb sp ab th : ℚ,
      log.skinfold_chest = some c → log.skinfold_axillary = some ax →
      log.skinfold_triceps = some tr → log.skinfold_subscapular = some sb →
      log.skinfold_suprailiac = some sp → log.skinfold_abdominal = some ab →
      log.skinfold_thigh = some th →
      computeLogBodyFat log =
        some (round6 (1.112 - 0.00043499 * (c + ax + tr + sb + sp + ab + th)
                + 0.00000055 * (c + ax + tr + sb + sp + ab + th) ^ 2
                - 0.00028826 * 25),
              round2 (max 0 (min (495 /
                round6 (1.112 - 0.00043499 * (c + ax + tr + sb + sp + ab + th)
                  + 0.00000055 * (c + ax + tr + sb + sp + ab + th) ^ 2
                  - 0.00028826 * 25) - 450) 60)))) ∧
    ((log.skinfold_chest = none ∨ log.skinfold_axillary = none ∨
      log.skinfold_triceps = none ∨ log.skinfold_subscapular = none ∨
      log.skinfold_suprailiac = none ∨ log.skinfold_abdominal = none ∨
      log.skinfold_thigh = none) →
      computeLogBodyFat log = none) := by
  constructor
  · intro c ax tr sb sp ab th hc hax htr hsb hsp hab hth
    unfold computeLogBodyFat
    rw [hc, hax, htr, hsb, hsp, hab, hth]
    dsimp only
    unfold calculate_body_fat_from_skinfolds calculate_body_density_pollock_7
    dsimp only
    rw [body_density_to_fat_percent_eq,
      show (0.00000055 : ℚ) * (c + ax + tr + sb + sp + ab + th) *
          (c + ax + tr + sb + sp + ab + th) =
        0.00000055 * (c + ax + tr + sb + sp + ab + th) ^ 2 from by ring]
  · intro h
    unfold computeLogBodyFat
    rcases h with h | h | h | h | h | h | h <;> rw [h] <;>
      rcases log.skinfold_chest with _ | c <;>
      rcases log.skinfold_axillary with _ | ax <;>
      rcases log.skinfold_triceps with _ | tr <;>
      rcases log.skinfold_subscapular with _ | sb <;>
      rcases log.skinfold_suprailiac with _ | sp <;>
      rcases log.skinfold_abdominal with _ | ab <;>
      rcases log.skinfold_thigh with _ | th <;>
      simp_all

/-- Witness for C9 on a concrete complete-skinfold log. -/
theorem pollock7_estimator_spec_witness :
    computeLogBodyFat
      { date := 0, weight_kg := 75,
        skinfold_chest := some 10, skinfold_axillary := some 10,
        skinfold_triceps := some 10, skinfold_subscapular := some 10,
        skinfold_suprailiac := some 10, skinfold_abdominal := some 10,
        skinfold_thigh := some 10 } =
      some (round6 (1.112 - 0.00043499 * 70 + 0.00000055 * 70 ^ 2
              - 0.00028826 * 25),
            round2 (max 0 (min (495 /
              round6 (1.112 - 0.00043499 * 70 + 0.00000055 * 70 ^ 2
                - 0.00028826 * 25) - 450) 60))) := by
  have h := (pollock7_estimator_spec
    { date := 0, weight_kg := 75,
      skinfold_chest := some 10, skinfold_axillary := some 10,
      skinfold_triceps := some 10, skinfold_subscapular := some 10,
      skinfold_suprailiac := some 10, skinfold_abdominal := some 10,
      skinfold_thigh := some 10 }).1 10 10 10 10 10 10 10
    rfl rfl rfl rfl rfl rfl rfl
  rw [h]
  norm_num

/-! ## Inversion infrastructure for `check_stagnation` -/

theorem check_ok_destruct {logs : List BodyLog} {plan : Option DietPlan}
    {res : AnalysisResult} (h : check_stagnation logs plan = .ok res) :
    ∃ anchor rest prev, logs = anchor :: rest ∧ 2 ≤ logs.length ∧
      findPrevAnchor logs (anchor.date - WINDOW_DAYS) = some prev ∧
      res = buildResult logs plan anchor prev := by
  unfold check_stagnation at h
  split_ifs at h with hlen
  match logs with
  | [] => simp at hlen
  | anchor :: rest =>
    dsimp only at h
    cases hfind : findPrevAnchor (anchor :: rest) (anchor.date - WINDOW_DAYS) with
    | none => rw [hfind] at h; exact absurd h (by simp)
    | some prev =>
      rw [hfind] at h
      refine ⟨anchor, rest, prev, rfl, by omega, hfind, ?_⟩
      exact (Except.ok.injEq _ _ |>.mp h).symm

theorem buildResult_core (logs : List BodyLog) (plan : Option DietPlan)
    (anchor prev : BodyLog) :
    (buildResult logs plan anchor prev).current_week_avg_weight =
      round2 (wCurrOf logs anchor.date) ∧
    (buildResult logs plan anchor prev).previous_week_avg_weight =
      round2 (wPrevOf logs prev.date) ∧
    (buildResult logs plan anchor prev).anchor_date = anchor.date ∧
    (buildResult logs plan anchor prev).weekly_rate =
      round3 (rawWeeklyRate logs anchor.date prev.date) ∧
    (buildResult logs plan anchor prev).monthly_projection =
      round3 (rawWeeklyRate logs anchor.date prev.date * 4) ∧
    (buildResult logs plan anchor prev).weeks_elapsed =
      round1 (weeksElapsed anchor.date prev.date) ∧
    (buildResult logs plan anchor prev).analysis_state =
      (_classify_weekly_rate (rawWeeklyRate logs anchor.date prev.date)).1 := by
  unfold buildResult withEmptySuggestions
  dsimp only
  split_ifs <;> and_intros <;> rfl

theorem classify_message (x : ℚ) :
    (_classify_weekly_rate x).2.1 = .classified (_classify_weekly_rate x).1 := by
  unfold _classify_weekly_rate
  split_ifs <;> rfl

theorem buildResult_suppressed (logs : List BodyLog) (plan : Option DietPlan)
    (anchor prev : BodyLog)
    (haa : alreadyAdjustedFlag plan (wCurrOf logs anchor.date)
      (wPrevOf logs prev.date) = true)
    (hneeds : stateNeedsAdjustment
      (_classify_weekly_rate (rawWeeklyRate logs anchor.date prev.date)).1 = true) :
    (buildResult logs plan anchor prev).is_stagnating = false ∧
    (buildResult logs plan anchor prev).message = .alreadyAdjusted ∧
    (buildResult logs plan anchor prev).suggested_calorie_adjustment = none ∧
    (buildResult logs plan anchor prev).suggested_carb_adjustment_g = none ∧
    (buildResult logs plan anchor prev).new_target_calories = none ∧
    (buildResult logs plan anchor prev).new_target_carbs = none ∧
    (buildResult logs plan anchor prev).current_carbs_g = none ∧
    (buildResult logs plan anchor prev).current_carbs_per_kg = none ∧
    (buildResult logs plan anchor prev).suggested_carbs_g = none ∧
    (buildResult logs plan anchor prev).suggested_carbs_per_kg = none ∧
    (buildResult logs plan anchor prev).current_calories = none ∧
    (buildResult logs plan anchor prev).suggested_calories = none := by
  unfold buildResult withEmptySuggestions
  dsimp only
  rw [if_pos ⟨haa, hneeds⟩]
  and_intros <;> rfl

theorem buildResult_fresh (logs : List BodyLog) (plan : Option DietPlan)
    (anchor prev : BodyLog)
    (h : ¬(alreadyAdjustedFlag plan (wCurrOf logs anchor.date)
        (wPrevOf logs prev.date) = true ∧
      stateNeedsAdjustment
        (_classify_weekly_rate (rawWeeklyRate logs anchor.date prev.date)).1 = true)) :
    (buildResult logs plan anchor prev).message =
      .classified (_classify_weekly_rate (rawWeeklyRate logs anchor.date prev.date)).1 ∧
    (buildResult logs plan anchor prev).is_stagnating =
      stateNeedsAdjustment
        (_classify_weekly_rate (rawWeeklyRate logs anchor.date prev.date)).1 := by
  unfold buildResult withEmptySuggestions
  dsimp only
  rw [if_neg h]
  by_cases h2 : stateNeedsAdjustment
      (_classify_weekly_rate (rawWeeklyRate logs anchor.date prev.date)).1 = true ∧
    (_classify_weekly_rate (rawWeeklyRate logs anchor.date prev.date)).2.2.1 ≠ 0
  · rw [if_pos h2]
    exact ⟨classify_message _, rfl⟩
  · rw [if_neg h2]
    exact ⟨classify_message _, rfl⟩

theorem buildResult_populated (logs : List BodyLog) (plan : Option DietPlan)
    (anchor prev : BodyLog)
    (h : ¬(alreadyAdjustedFlag plan (wCurrOf logs anchor.date)
        (wPrevOf logs prev.date) = true ∧
      stateNeedsAdjustment
        (_classify_weekly_rate (rawWeeklyRate logs anchor.date prev.date)).1 = true))
    (hneeds : stateNeedsAdjustment
      (_classify_weekly_rate (rawWeeklyRate logs anchor.date prev.date)).1 = true)
    (hca : (_classify_weekly_rate (rawWeeklyRate logs anchor.date prev.date)).2.2.1 ≠ 0) :
    (buildResult logs plan anchor prev).suggested_calorie_adjustment =
      some (round1 ((_classify_weekly_rate (rawWeeklyRate logs anchor.date prev.date)).2.2.1)) ∧
    (buildResult logs plan anchor prev).suggested_carb_adjustment_g =
      some (round1 ((_classify_weekly_rate (rawWeeklyRate logs anchor.date prev.date)).2.2.2)) ∧
    (buildResult logs plan anchor prev).current_calories =
      some (round1 (currentCaloriesOf plan)) ∧
    (buildResult logs plan anchor prev).suggested_calories =
      some (round1 (currentCaloriesOf plan +
        (_classify_weekly_rate (rawWeeklyRate logs anchor.date prev.date)).2.2.1)) ∧
    (buildResult logs plan anchor prev).current_carbs_g =
      some (round1 (currentCarbsOf plan)) ∧
    (buildResult logs plan anchor prev).suggested_carbs_g =
      some (round1 (currentCarbsOf plan +
        (_classify_weekly_rate (rawWeeklyRate logs anchor.date prev.date)).2.2.2)) ∧
    (∀ p, plan = some p →
      (buildResult logs plan anchor prev).new_target_calories =
        some (round1 (currentCaloriesOf plan +
          (_classify_weekly_rate (rawWeeklyRate logs anchor.date prev.date)).2.2.1)) ∧
      (buildResult logs plan anchor prev).new_target_carbs =
        some (round1 (currentCarbsOf plan +
          (_classify_weekly_rate (rawWeeklyRate logs anchor.date prev.date)).2.2.2))) ∧
    (plan = none →
      (buildResult logs plan anchor prev).new_target_calories = none ∧
      (buildResult logs plan anchor prev).new_target_carbs = none) := by
  unfold buildResult withEmptySuggestions
  dsimp only
  rw [if_neg h, if_pos ⟨hneeds, hca⟩]
  refine ⟨rfl, rfl, rfl, rfl, rfl, rfl, fun p hp => ?_, fun hp => ?_⟩ <;>
    (subst hp
     exact ⟨rfl, rfl⟩)

theorem buildResult_no_adjustment (logs : List BodyLog) (plan : Option DietPlan)
    (anchor prev : BodyLog)
    (hneeds : stateNeedsAdjustment
      (_classify_weekly_rate (rawWeeklyRate logs anchor.date prev.date)).1 = false) :
    (buildResult logs plan anchor prev).is_stagnating = false ∧
    (buildResult logs plan anchor prev).message =
      .classified (_classify_weekly_rate (rawWeeklyRate logs anchor.date prev.date)).1 ∧
    (buildResult logs plan anchor prev).suggested_calorie_adjustment = none ∧
    (buildResult logs plan anchor prev).suggested_carb_adjustment_g = none ∧
    (buildResult logs plan anchor prev).new_target_calories = none ∧
    (buildResult logs plan anchor prev).new_target_carbs = none ∧
    (buildResult logs plan anchor prev).suggested_calories = none ∧
    (buildResult logs plan anchor prev).suggested_carbs_g = none := by
  unfold buildResult withEmptySuggestions
  dsimp only
  rw [if_neg (fun hc => absurd hc.2 (by rw [hneeds]; exact Bool.false_ne_true)),
    if_neg (fun hc => absurd hc.1 (by rw [hneeds]; exact Bool.false_ne_true))]
  exact ⟨by rw [hneeds], classify_message _, rfl, rfl, rfl, rfl, rfl, rfl⟩

theorem classify_adj_nonzero (x : ℚ)
    (h : stateNeedsAdjustment (_classify_weekly_rate x).1 = true) :
    (_classify_weekly_rate x).2.2.1 ≠ 0 := by
  unfold _classify_weekly_rate at h ⊢
  split_ifs at h ⊢ <;> simp_all [stateNeedsAdjustment]

theorem alreadyAdjustedFlag_some (p : DietPlan) (t0 : ℤ) (swc swp wc wp : ℚ)
    (hts : p.last_coach_adjustment_at = some t0)
    (hwc : p.last_coach_w_curr = some swc)
    (hwp : p.last_coach_w_prev = some swp) :
    alreadyAdjustedFlag (some p) wc wp =
      (decide (round2 wc = round2 swc) && decide (round2 wp = round2 swp)) := by
  unfold alreadyAdjustedFlag
  dsimp only
  rw [hts, hwc, hwp]

theorem check_no_noActivePlan (logs : List BodyLog) (plan : Option DietPlan) :
    check_stagnation logs plan ≠ .error .noActivePlan := by
  unfold check_stagnation
  split_ifs
  · simp
  · match logs with
    | [] => simp
    | a :: rest =>
      dsimp only
      cases hfind : findPrevAnchor (a :: rest) (a.date - WINDOW_DAYS) <;>
        simp [hfind]

/-! ## C5: rate normalization -/

/-- Claim C5. For every successful analysis anchored at `anchor` with previous
anchor `prev`: the unrounded `weeks_elapsed = max((t_curr − t_prev)/7, 1)`
is at least `1`; the unrounded `weekly_rate` is the window-average
difference divided by `weeks_elapsed`; the reported `weekly_rate` and
`monthly_projection` are the 3-decimal roundings of the unrounded values
(so the reported projection is `round(weekly_rate × 4, 3)`), the reported
`weeks_elapsed` is the 1-decimal rounding, and the classification consumes
the unrounded rate. -/
theorem rate_normalizer_spec (logs : List BodyLog) (plan : Option DietPlan)
    (res : AnalysisResult) (anchor prev : BodyLog)
    (h : check_stagnation logs plan = .ok res)
    (hhead : logs.head? = some anchor)
    (hfind : findPrevAnchor logs (anchor.date - WINDOW_DAYS) = some prev) :
    weeksElapsed anchor.date prev.date =
      max (((anchor.date - prev.date : ℤ) : ℚ) / 7) 1 ∧
    1 ≤ weeksElapsed anchor.date prev.date ∧
    rawWeeklyRate logs anchor.date prev.date =
      (wCurrOf logs anchor.date - wPrevOf logs prev.date) /
        weeksElapsed anchor.date prev.date ∧
    res.weeks_elapsed = round1 (weeksElapsed anchor.date prev.date) ∧
    res.weekly_rate = round3 (rawWeeklyRate logs anchor.date prev.date) ∧
    res.monthly_projection =
      round3 (rawWeeklyRate logs anchor.date prev.date * 4) ∧
    res.analysis_state =
      (_classify_weekly_rate (rawWeeklyRate logs anchor.date prev.date)).1 := by
  obtain ⟨a, rest, p, heq, hlen, hfind2, hres⟩ := check_ok_destruct h
  subst heq
  have ha : a = anchor := by simpa using hhead
  subst ha
  have hp : p = prev := by
    rw [hfind2] at hfind
    exact Option.some.inj hfind
  subst hp
  subst hres
  have hc := buildResult_core (a :: rest) plan a p
  exact ⟨rfl, le_max_right _ _, rfl, hc.2.2.2.2.2.1, hc.2.2.2.1,
    hc.2.2.2.2.1, hc.2.2.2.2.2.2⟩

/-- Witness for C5 on the concrete two-log data set. -/
theorem rate_normalizer_spec_witness :
    weeksElapsed (exLog 20 75).date (exLog 10 75).date =
      max ((((exLog 20 75).date - (exLog 10 75).date : ℤ) : ℚ) / 7) 1 ∧
    1 ≤ weeksElapsed (exLog 20 75).date (exLog 10 75).date ∧
    rawWeeklyRate logsPair (exLog 20 75).date (exLog 10 75).date =
      (wCurrOf logsPair (exLog 20 75).date - wPrevOf logsPair (exLog 10 75).date) /
        weeksElapsed (exLog 20 75).date (exLog 10 75).date ∧
    (buildResult logsPair none (exLog 20 75) (exLog 10 75)).weeks_elapsed =
      round1 (weeksElapsed (exLog 20 75).date (exLog 10 75).date) ∧
    (buildResult logsPair none (exLog 20 75) (exLog 10 75)).weekly_rate =
      round3 (rawWeeklyRate logsPair (exLog 20 75).date (exLog 10 75).date) ∧
    (buildResult logsPair none (exLog 20 75) (exLog 10 75)).monthly_projection =
      round3 (rawWeeklyRate logsPair (exLog 20 75).date (exLog 10 75).date * 4) ∧
    (buildResult logsPair none (exLog 20 75) (exLog 10 75)).analysis_state =
      (_classify_weekly_rate
        (rawWeeklyRate logsPair (exLog 20 75).date (exLog 10 75).date)).1 :=
  rate_normalizer_spec logsPair none
    (buildResult logsPair none (exLog 20 75) (exLog 10 75))
    (exLog 20 75) (exLog 10 75) rfl rfl rfl

/-! ## C2: fingerprint suppression on analyze -/

/-- Claim C2. On a successful analyze against an active plan carrying a full
fingerprint (adjustment timestamp and both stored averages): if the freshly
computed window averages match the stored pair after 2-decimal rounding and
the freshly classified state requires adjustment, the result reports
`is_stagnating = false` with the "already handled, awaiting new data"
message and every suggestion field `none`; if instead the state is
`optimal` or either rounded average differs from the stored pair, the
result carries the fresh classifier message, `is_stagnating` reflects the
fresh state, and the suggestion is recomputed and surfaced normally
(populated exactly when the fresh state requires adjustment). -/
theorem fingerprint_guard_spec (logs : List BodyLog) (p : DietPlan)
    (res : AnalysisResult) (anchor prev : BodyLog) (t0 : ℤ) (swc swp : ℚ)
    (h : check_stagnation logs (some p) = .ok res)
    (hhead : logs.head? = some anchor)
    (hfind : findPrevAnchor logs (anchor.date - WINDOW_DAYS) = some prev)
    (hts : p.last_coach_adjustment_at = some t0)
    (hwc : p.last_coach_w_curr = some swc)
    (hwp : p.last_coach_w_prev = some swp) :
    ((round2 (wCurrOf logs anchor.date) = round2 swc ∧
      round2 (wPrevOf logs prev.date) = round2 swp ∧
      stateNeedsAdjustment
        (_classify_weekly_rate (rawWeeklyRate logs anchor.date prev.date)).1 = true) →
      res.is_stagnating = false ∧
      res.message = .alreadyAdjusted ∧
      res.suggested_calorie_adjustment = none ∧
      res.suggested_carb_adjustment_g = none ∧
      res.new_target_calories = none ∧
      res.new_target_carbs = none ∧
      res.current_carbs_g = none ∧
      res.current_carbs_per_kg = none ∧
      res.suggested_carbs_g = none ∧
      res.suggested_carbs_per_kg = none ∧
      res.current_calories = none ∧
      res.suggested_calories = none) ∧
    (((_classify_weekly_rate (rawWeeklyRate logs anchor.date prev.date)).1 =
        .optimal ∨
      round2 (wCurrOf logs anchor.date) ≠ round2 swc ∨
      round2 (wPrevOf logs prev.date) ≠ round2 swp) →
      res.message = .classified
        (_classify_weekly_rate (rawWeeklyRate logs anchor.date prev.date)).1 ∧
      res.is_stagnating = stateNeedsAdjustment
        (_classify_weekly_rate (rawWeeklyRate logs anchor.date prev.date)).1 ∧
      (stateNeedsAdjustment
          (_classify_weekly_rate (rawWeeklyRate logs anchor.date prev.date)).1 = true →
        res.suggested_calorie_adjustment = some (round1
          ((_classify_weekly_rate (rawWeeklyRate logs anchor.date prev.date)).2.2.1)) ∧
        res.suggested_carb_adjustment_g = some (round1
          ((_classify_weekly_rate (rawWeeklyRate logs anchor.date prev.date)).2.2.2)) ∧
        res.suggested_calories = some (round1 (p.target_calories +
          (_classify_weekly_rate (rawWeeklyRate logs anchor.date prev.date)).2.2.1)) ∧
        res.suggested_carbs_g = some (round1 (p.target_carbs +
          (_classify_weekly_rate (rawWeeklyRate logs anchor.date prev.date)).2.2.2)) ∧
        res.new_target_calories = some (round1 (p.target_calories +
          (_classify_weekly_rate (rawWeeklyRate logs anchor.date prev.date)).2.2.1)) ∧
        res.new_target_carbs = some (round1 (p.target_carbs +
          (_classify_weekly_rate (rawWeeklyRate logs anchor.date prev.date)).2.2.2)))) := by
  obtain ⟨a, rest, pa, heq, hlen, hfind2, hres⟩ := check_ok_destruct h
  subst heq
  have ha : a = anchor := by simpa using hhead
  subst ha
  have hpp : pa = prev := by
    rw [hfind2] at hfind
    exact Option.some.inj hfind
  subst hpp
  subst hres
  constructor
  · intro ⟨he1, he2, hst⟩
    have haa : alreadyAdjustedFlag (some p) (wCurrOf (a :: rest) a.date)
        (wPrevOf (a :: rest) pa.date) = true := by
      rw [alreadyAdjustedFlag_some p t0 swc swp _ _ hts hwc hwp]
      simp [he1, he2]
    exact buildResult_suppressed (a :: rest) (some p) a pa haa hst
  · intro hcase
    have hnot : ¬(alreadyAdjustedFlag (some p) (wCurrOf (a :: rest) a.date)
        (wPrevOf (a :: rest) pa.date) = true ∧
      stateNeedsAdjustment
        (_classify_weekly_rate (rawWeeklyRate (a :: rest) a.date pa.date)).1 = true) := by
      rcases hcase with hopt | hne | hne
      · intro ⟨_, hst⟩
        rw [hopt] at hst
        exact absurd hst (by simp [stateNeedsAdjustment])
      · intro ⟨haa, _⟩
        rw [alreadyAdjustedFlag_some p t0 swc swp _ _ hts hwc hwp] at haa
        simp only [Bool.and_eq_true, decide_eq_true_eq] at haa
        exact hne haa.1
      · intro ⟨haa, _⟩
        rw [alreadyAdjustedFlag_some p t0 swc swp _ _ hts hwc hwp] at haa
        simp only [Bool.and_eq_true, decide_eq_true_eq] at haa
        exact hne haa.2
    have hf := buildResult_fresh (a :: rest) (some p) a pa hnot
    refine ⟨hf.1, hf.2, ?_⟩
    intro hst
    have hca := classify_adj_nonzero _ hst
    have hp := buildResult_populated (a :: rest) (some p) a pa hnot hst hca
    have hnt := hp.2.2.2.2.2.2.1 p rfl
    exact ⟨hp.1, hp.2.1, hp.2.2.2.1, hp.2.2.2.2.2.1, hnt.1, hnt.2⟩

/-- Witness for C2: with the matching fingerprint plan and steady weights
(fresh state `slow_gain`), the repeat suggestion is suppressed. -/
theorem fingerprint_guard_spec_witness :
    (buildResult logsPair (some planFp) (exLog 20 75) (exLog 10 75)).is_stagnating
      = false ∧
    (buildResult logsPair (some planFp) (exLog 20 75) (exLog 10 75)).message
      = .alreadyAdjusted ∧
    (buildResult logsPair (some planFp) (exLog 20 75) (exLog 10 75)).suggested_calorie_adjustment = none ∧
    (buildResult logsPair (some planFp) (exLog 20 75) (exLog 10 75)).suggested_carb_adjustment_g = none ∧
    (buildResult logsPair (some planFp) (exLog 20 75) (exLog 10 75)).new_target_calories = none ∧
    (buildResult logsPair (some planFp) (exLog 20 75) (exLog 10 75)).new_target_carbs = none ∧
    (buildResult logsPair (some planFp) (exLog 20 75) (exLog 10 75)).current_carbs_g = none ∧
    (buildResult logsPair (some planFp) (exLog 20 75) (exLog 10 75)).current_carbs_per_kg = none ∧
    (buildResult logsPair (some planFp) (exLog 20 75) (exLog 10 75)).suggested_carbs_g = none ∧
    (buildResult logsPair (some planFp) (exLog 20 75) (exLog 10 75)).suggested_carbs_per_kg = none ∧
    (buildResult logsPair (some planFp) (exLog 20 75) (exLog 10 75)).current_calories = none ∧
    (buildResult logsPair (some planFp) (exLog 20 75) (exLog 10 75)).suggested_calories = none :=
  (fingerprint_guard_spec logsPair planFp
    (buildResult logsPair (some planFp) (exLog 20 75) (exLog 10 75))
    (exLog 20 75) (exLog 10 75) 5 75 75 rfl rfl rfl rfl rfl rfl).1
    (by
      have hw : wCurrOf logsPair (exLog 20 75).date = 75 := by
        norm_num [wCurrOf, currWindowLogs, listMean, logsPair, exLog, WINDOW_DAYS]
      have hp : wPrevOf logsPair (exLog 10 75).date = 75 := by
        norm_num [wPrevOf, prevWindowLogs, listMean, logsPair, exLog, WINDOW_DAYS]
      have hr : rawWeeklyRate logsPair (exLog 20 75).date (exLog 10 75).date = 0 := by
        norm_num [rawWeeklyRate, hw, hp]
      refine ⟨by rw [hw], by rw [hp], ?_⟩
      rw [hr]
      norm_num [_classify_weekly_rate, RATE_MIN_FLOOR, stateNeedsAdjustment])

/-! ## C10: analyze without an active plan -/

/-- Claim C10. Analyze never fails with `NoActivePlan`; with no active plan
and a successful analysis, the absolute new-target fields are `none`, and
when a suggestion is surfaced the suggested calories/carbs equal the bare
classifier deltas rounded to 1 decimal (the current targets are treated as
`0`). -/
theorem analyze_without_plan (logs : List BodyLog) (res : AnalysisResult)
    (anchor prev : BodyLog)
    (h : check_stagnation logs none = .ok res)
    (hhead : logs.head? = some anchor)
    (hfind : findPrevAnchor logs (anchor.date - WINDOW_DAYS) = some prev) :
    (∀ plan : Option DietPlan,
      check_stagnation logs plan ≠ .error .noActivePlan) ∧
    res.new_target_calories = none ∧
    res.new_target_carbs = none ∧
    (res.is_stagnating = true →
      res.suggested_calorie_adjustment = some (round1
        ((_classify_weekly_rate (rawWeeklyRate logs anchor.date prev.date)).2.2.1)) ∧
      res.suggested_calories = some (round1 (0 +
        (_classify_weekly_rate (rawWeeklyRate logs anchor.date prev.date)).2.2.1)) ∧
      res.suggested_carb_adjustment_g = some (round1
        ((_classify_weekly_rate (rawWeeklyRate logs anchor.date prev.date)).2.2.2)) ∧
      res.suggested_carbs_g = some (round1 (0 +
        (_classify_weekly_rate (rawWeeklyRate logs anchor.date prev.date)).2.2.2))) := by
  obtain ⟨a, rest, pa, heq, hlen, hfind2, hres⟩ := check_ok_destruct h
  subst heq
  have ha : a = anchor := by simpa using hhead
  subst ha
  have hpp : pa = prev := by
    rw [hfind2] at hfind
    exact Option.some.inj hfind
  subst hpp
  subst hres
  have hnot : ¬(alreadyAdjustedFlag none (wCurrOf (a :: rest) a.date)
      (wPrevOf (a :: rest) pa.date) = true ∧
    stateNeedsAdjustment
      (_classify_weekly_rate (rawWeeklyRate (a :: rest) a.date pa.date)).1 = true) := by
    intro ⟨haa, _⟩
    exact absurd haa (by simp [alreadyAdjustedFlag])
  have hflag := buildResult_fresh (a :: rest) none a pa hnot
  refine ⟨fun plan => check_no_noActivePlan _ plan, ?_, ?_, ?_⟩
  · by_cases hst : stateNeedsAdjustment
        (_classify_weekly_rate (rawWeeklyRate (a :: rest) a.date pa.date)).1 = true
    · exact ((buildResult_populated (a :: rest) none a pa hnot hst
        (classify_adj_nonzero _ hst)).2.2.2.2.2.2.2 rfl).1
    · have hst' : stateNeedsAdjustment
          (_classify_weekly_rate (rawWeeklyRate (a :: rest) a.date pa.date)).1 = false := by
        revert hst
        cases stateNeedsAdjustment
          (_classify_weekly_rate (rawWeeklyRate (a :: rest) a.date pa.date)).1 <;> simp
      exact (buildResult_no_adjustment (a :: rest) none a pa hst').2.2.2.2.1
  · by_cases hst : stateNeedsAdjustment
        (_classify_weekly_rate (rawWeeklyRate (a :: rest) a.date pa.date)).1 = true
    · exact ((buildResult_populated (a :: rest) none a pa hnot hst
        (classify_adj_nonzero _ hst)).2.2.2.2.2.2.2 rfl).2
    · have hst' : stateNeedsAdjustment
          (_classify_weekly_rate (rawWeeklyRate (a :: rest) a.date pa.date)).1 = false := by
        revert hst
        cases stateNeedsAdjustment
          (_classify_weekly_rate (rawWeeklyRate (a :: rest) a.date pa.date)).1 <;> simp
      exact (buildResult_no_adjustment (a :: rest) none a pa hst').2.2.2.2.2.1
  · intro hstag
    have hneeds : stateNeedsAdjustment
        (_classify_weekly_rate (rawWeeklyRate (a :: rest) a.date pa.date)).1 = true := by
      rw [← hflag.2]
      exact hstag
    have hca := classify_adj_nonzero _ hneeds
    have hp := buildResult_populated (a :: rest) none a pa hnot hneeds hca
    exact ⟨hp.1, hp.2.2.2.1, hp.2.1, hp.2.2.2.2.2.1⟩

/-- Witness for C10 on the concrete two-log data set (state `slow_gain`,
suggestion surfaced with the bare deltas). -/
theorem analyze_without_plan_witness :
    (∀ plan : Option DietPlan,
      check_stagnation logsPair plan ≠ .error .noActivePlan) ∧
    (buildResult logsPair none (exLog 20 75) (exLog 10 75)).new_target_calories = none ∧
    (buildResult logsPair none (exLog 20 75) (exLog 10 75)).new_target_carbs = none ∧
    ((buildResult logsPair none (exLog 20 75) (exLog 10 75)).is_stagnating = true →
      (buildResult logsPair none (exLog 20 75) (exLog 10 75)).suggested_calorie_adjustment
        = some (round1
          ((_classify_weekly_rate
            (rawWeeklyRate logsPair (exLog 20 75).date (exLog 10 75).date)).2.2.1)) ∧
      (buildResult logsPair none (exLog 20 75) (exLog 10 75)).suggested_calories
        = some (round1 (0 +
          (_classify_weekly_rate
            (rawWeeklyRate logsPair (exLog 20 75).date (exLog 10 75).date)).2.2.1)) ∧
      (buildResult logsPair none (exLog 20 75) (exLog 10 75)).suggested_carb_adjustment_g
        = some (round1
          ((_classify_weekly_rate
            (rawWeeklyRate logsPair (exLog 20 75).date (exLog 10 75).date)).2.2.2)) ∧
      (buildResult logsPair none (exLog 20 75) (exLog 10 75)).suggested_carbs_g
        = some (round1 (0 +
          (_classify_weekly_rate
            (rawWeeklyRate logsPair (exLog 20 75).date (exLog 10 75).date)).2.2.2))) :=
  analyze_without_plan logsPair
    (buildResult logsPair none (exLog 20 75) (exLog 10 75))
    (exLog 20 75) (exLog 10 75) rfl rfl rfl

theorem find_first_lt (logs : List BodyLog) (c : ℤ)
    (hs : List.Pairwise (fun a b => b.date ≤ a.date) logs) (p : BodyLog)
    (hfind : logs.find? (fun l => decide (l.date < c)) = some p) :
    p ∈ logs ∧ p.date < c ∧ ∀ l ∈ logs, l.date < c → l.date ≤ p.date := by
  induction logs with
  | nil => simp at hfind
  | cons a rest ih =>
    rw [List.find?_cons] at hfind
    rcases List.pairwise_cons.mp hs with ⟨ha, hrest⟩
    by_cases hpa : a.date < c
    · have hd : decide (a.date < c) = true := by simpa using hpa
      rw [hd] at hfind
      have hap : a = p := Option.some.inj hfind
      subst hap
      refine ⟨List.mem_cons_self _ _, hpa, ?_⟩
      intro l hl _
      rcases List.mem_cons.mp hl with h0 | h0
      · subst h0
        exact le_refl _
      · exact ha l h0
    · have hd : decide (a.date < c) = false := by simpa using hpa
      rw [hd] at hfind
      obtain ⟨hmem, hlt, hmax⟩ := ih hrest hfind
      refine ⟨List.mem_cons_of_mem _ hmem, hlt, ?_⟩
      intro l hl hlc
      rcases List.mem_cons.mp hl with h0 | h0
      · subst h0
        exact absurd hlc hpa
      · exact hmax l h0 hlc

theorem count_currWindowLogs (logs : List BodyLog) (t : ℤ) (l : BodyLog) :
    (currWindowLogs logs t).count l =
      if t - WINDOW_DAYS ≤ l.date ∧ l.date ≤ t then logs.count l else 0 := by
  unfold currWindowLogs
  by_cases hc : t - WINDOW_DAYS ≤ l.date ∧ l.date ≤ t
  · rw [if_pos hc]
    exact List.count_filter (by simp [hc.1, hc.2])
  · rw [if_neg hc]
    rw [List.count_eq_zero]
    intro hmem
    have hp := (List.mem_filter.mp hmem).2
    simp only [Bool.and_eq_true, decide_eq_true_eq] at hp
    exact hc hp

theorem count_prevWindowLogs (logs : List BodyLog) (t : ℤ) (l : BodyLog) :
    (prevWindowLogs logs t).count l =
      if t - WINDOW_DAYS ≤ l.date ∧ l.date ≤ t then logs.count l else 0 := by
  unfold prevWindowLogs
  by_cases hc : t - WINDOW_DAYS ≤ l.date ∧ l.date ≤ t
  · rw [if_pos hc]
    exact List.count_filter (by simp [hc.1, hc.2])
  · rw [if_neg hc]
    rw [List.count_eq_zero]
    intro hmem
    have hp := (List.mem_filter.mp hmem).2
    simp only [Bool.and_eq_true, decide_eq_true_eq] at hp
    exact hc hp

/-! ## C4: anchor-window selection -/

/-- Claim C4. For a fetched, date-descending log list with head `anchor`:
`t_curr` is the date of the most recent entry (every log's date is
`≤ anchor.date`); the current window collects exactly the entries with date
in the closed interval `[t_curr − 6, t_curr]`, each with its full
multiplicity (ties all included, no deduplication), and `w_curr` is the
arithmetic mean of their weights; the previous anchor found is a member of
the list, lies strictly before `t_curr − 6`, and is the most recent such
entry; the previous window and `w_prev` are characterized the same way
around `t_prev`. -/
theorem window_selection_spec (logs : List BodyLog) (anchor : BodyLog)
    (hhead : logs.head? = some anchor)
    (hs : List.Pairwise (fun a b => b.date ≤ a.date) logs) :
    (∀ l ∈ logs, l.date ≤ anchor.date) ∧
    (∀ l : BodyLog, (currWindowLogs logs anchor.date).count l =
      if anchor.date - WINDOW_DAYS ≤ l.date ∧ l.date ≤ anchor.date
      then logs.count l else 0) ∧
    wCurrOf logs anchor.date =
      ((currWindowLogs logs anchor.date).map (·.weight_kg)).sum /
        (((currWindowLogs logs anchor.date).map (·.weight_kg)).length : ℚ) ∧
    (∀ p, findPrevAnchor logs (anchor.date - WINDOW_DAYS) = some p →
      p ∈ logs ∧ p.date < anchor.date - WINDOW_DAYS ∧
      (∀ l ∈ logs, l.date < anchor.date - WINDOW_DAYS → l.date ≤ p.date) ∧
      (∀ l : BodyLog, (prevWindowLogs logs p.date).count l =
        if p.date - WINDOW_DAYS ≤ l.date ∧ l.date ≤ p.date
        then logs.count l else 0) ∧
      wPrevOf logs p.date =
        ((prevWindowLogs logs p.date).map (·.weight_kg)).sum /
          (((prevWindowLogs logs p.date).map (·.weight_kg)).length : ℚ)) := by
  have hcons : ∃ rest, logs = anchor :: rest := by
    cases logs with
    | nil => simp at hhead
    | cons a rest => exact ⟨rest, by simpa using hhead⟩
  obtain ⟨rest, hlogs⟩ := hcons
  refine ⟨?_, fun l => count_currWindowLogs logs anchor.date l, rfl, ?_⟩
  · intro l hl
    subst hlogs
    rcases List.mem_cons.mp hl with h0 | h0
    · subst h0
      exact le_refl _
    · exact (List.pairwise_cons.mp hs).1 l h0
  · intro p hfind
    obtain ⟨hmem, hlt, hmax⟩ := find_first_lt logs _ hs p hfind
    exact ⟨hmem, hlt, hmax, fun l => count_prevWindowLogs logs p.date l, rfl⟩

/-- Witness for C4 on the concrete two-log data set. -/
theorem window_selection_spec_witness :
    (∀ l ∈ logsPair, l.date ≤ (exLog 20 75).date) ∧
    (∀ l : BodyLog, (currWindowLogs logsPair (exLog 20 75).date).count l =
      if (exLog 20 75).date - WINDOW_DAYS ≤ l.date ∧ l.date ≤ (exLog 20 75).date
      then logsPair.count l else 0) ∧
    wCurrOf logsPair (exLog 20 75).date =
      ((currWindowLogs logsPair (exLog 20 75).date).map (·.weight_kg)).sum /
        (((currWindowLogs logsPair (exLog 20 75).date).map (·.weight_kg)).length : ℚ) ∧
    (∀ p, findPrevAnchor logsPair ((exLog 20 75).date - WINDOW_DAYS) = some p →
      p ∈ logsPair ∧ p.date < (exLog 20 75).date - WINDOW_DAYS ∧
      (∀ l ∈ logsPair, l.date < (exLog 20 75).date - WINDOW_DAYS → l.date ≤ p.date) ∧
      (∀ l : BodyLog, (prevWindowLogs logsPair p.date).count l =
        if p.date - WINDOW_DAYS ≤ l.date ∧ l.date ≤ p.date
        then logsPair.count l else 0) ∧
      wPrevOf logsPair p.date =
        ((prevWindowLogs logsPair p.date).map (·.weight_kg)).sum /
          (((prevWindowLogs logsPair p.date).map (·.weight_kg)).length : ℚ)) :=
  window_selection_spec logsPair (exLog 20 75) rfl
    (by simp [logsPair, exLog])

theorem or1_none (x : Option ℚ) : or1 x none = x := by
  cases x <;> rfl

theorem measScan_eq (inW : BodyLog → Bool) (logs : List BodyLog)
    (w a : Option ℚ) :
    measScan inW logs w a =
      (or1 w (firstWaistIn inW logs), or1 a (firstArmIn inW logs)) := by
  induction logs generalizing w a with
  | nil => cases w <;> cases a <;> rfl
  | cons log rest ih =>
    unfold measScan firstWaistIn firstArmIn
    by_cases hin : inW log = true
    · cases w <;> cases a <;>
        rcases hw : log.circ_waist with _ | wv <;>
        rcases hp : pyOr log.circ_arm_contracted_right
          log.circ_arm_relaxed_right with _ | av <;>
        simp [hin, hw, hp, or1, ih]
    · have hin' : inW log = false := by
        revert hin
        cases inW log <;> simp
      cases w <;> cases a <;> simp [hin', or1, ih]

theorem measurement_changes_eq (logs : List BodyLog) (cs ps tp : ℤ) :
    _get_measurement_changes logs cs ps tp =
      ((match firstWaistIn (inCurrWindow cs) logs,
            firstWaistIn (inPrevWindow ps tp) logs with
        | some cw, some pw => some (cw - pw)
        | _, _ => none),
       (match firstArmIn (inCurrWindow cs) logs,
            firstArmIn (inPrevWindow ps tp) logs with
        | some ca, some pa => some (ca - pa)
        | _, _ => none)) := by
  unfold _get_measurement_changes
  rw [measScan_eq, measScan_eq]
  rfl

theorem buildResult_cutting (logs : List BodyLog) (plan : Option DietPlan)
    (anchor prev : BodyLog) :
    (buildResult logs plan anchor prev).suggest_cutting =
      (waistArmStop logs (anchor.date - WINDOW_DAYS) (prev.date - WINDOW_DAYS)
        prev.date || bodyFatStop logs) := by
  unfold buildResult withEmptySuggestions
  dsimp only
  split_ifs <;> rfl

theorem waistArmStop_iff (logs : List BodyLog) (cs ps tp : ℤ) :
    waistArmStop logs cs ps tp = true ↔
      ∃ cw pw ca pa2,
        firstWaistIn (inCurrWindow cs) logs = some cw ∧
        firstWaistIn (inPrevWindow ps tp) logs = some pw ∧
        firstArmIn (inCurrWindow cs) logs = some ca ∧
        firstArmIn (inPrevWindow ps tp) logs = some pa2 ∧
        cw - pw > WAIST_GROWTH_THRESHOLD_CM ∧
        ca - pa2 ≤ ARM_GROWTH_THRESHOLD_CM := by
  unfold waistArmStop
  rw [measurement_changes_eq]
  dsimp only
  rcases h1 : firstWaistIn (inCurrWindow cs) logs with _ | cw <;>
  rcases h2 : firstWaistIn (inPrevWindow ps tp) logs with _ | pw <;>
  rcases h3 : firstArmIn (inCurrWindow cs) logs with _ | ca <;>
  rcases h4 : firstArmIn (inPrevWindow ps tp) logs with _ | pa2 <;>
    simp [h1, h2, h3, h4]

theorem bodyFatStop_iff (logs : List BodyLog) :
    bodyFatStop logs = true ↔
      ∃ bf, _get_latest_body_fat logs = some bf ∧
        bf > BODY_FAT_CEILING_PERCENT := by
  unfold bodyFatStop
  rcases h : _get_latest_body_fat logs with _ | bf <;> simp [h]

/-! ## C8: stop conditions -/

/-- Claim C8. (amended: the arm value preference follows Python truthiness —
contracted-right is used when present and non-zero, a contracted value of
`0.0` falls through to relaxed-right.)  On every successful analyze,
`suggest_cutting` is true iff (a) per window the first available waist
value and the first available truthy arm value all exist and
`waist_change > 0.5` while `arm_change ≤ 0.1`, or (b) the first non-null
bio-impedance body-fat reading (scanning all fetched logs newest-first)
exceeds `20`; if either window lacks a waist or arm value, check (a) does
not fire; and neither check alters the classifier's calorie/carb deltas. -/
theorem stop_conditions_spec (logs : List BodyLog) (plan : Option DietPlan)
    (res : AnalysisResult) (anchor prev : BodyLog)
    (h : check_stagnation logs plan = .ok res)
    (hhead : logs.head? = some anchor)
    (hfind : findPrevAnchor logs (anchor.date - WINDOW_DAYS) = some prev) :
    (res.suggest_cutting = true ↔
      ((∃ cw pw ca pa2,
        firstWaistIn (inCurrWindow (anchor.date - WINDOW_DAYS)) logs = some cw ∧
        firstWaistIn (inPrevWindow (prev.date - WINDOW_DAYS) prev.date) logs
          = some pw ∧
        firstArmIn (inCurrWindow (anchor.date - WINDOW_DAYS)) logs = some ca ∧
        firstArmIn (inPrevWindow (prev.date - WINDOW_DAYS) prev.date) logs
          = some pa2 ∧
        cw - pw > WAIST_GROWTH_THRESHOLD_CM ∧
        ca - pa2 ≤ ARM_GROWTH_THRESHOLD_CM) ∨
      (∃ bf, _get_latest_body_fat logs = some bf ∧
        bf > BODY_FAT_CEILING_PERCENT))) ∧
    res.analysis_state =
      (_classify_weekly_rate (rawWeeklyRate logs anchor.date prev.date)).1 ∧
    (res.suggested_calorie_adjustment = none ∨
      res.suggested_calorie_adjustment = some (round1
        ((_classify_weekly_rate (rawWeeklyRate logs anchor.date prev.date)).2.2.1))) ∧
    (res.suggested_carb_adjustment_g = none ∨
      res.suggested_carb_adjustment_g = some (round1
        ((_classify_weekly_rate (rawWeeklyRate logs anchor.date prev.date)).2.2.2))) := by
  obtain ⟨a, rest, pa, heq, hlen, hfind2, hres⟩ := check_ok_destruct h
  subst heq
  have ha : a = anchor := by simpa using hhead
  subst ha
  have hpp : pa = prev := by
    rw [hfind2] at hfind
    exact Option.some.inj hfind
  subst hpp
  subst hres
  refine ⟨?_, (buildResult_core (a :: rest) plan a pa).2.2.2.2.2.2, ?_, ?_⟩
  · rw [buildResult_cutting]
    rw [Bool.or_eq_true, waistArmStop_iff, bodyFatStop_iff]
  · by_cases hmain : alreadyAdjustedFlag plan (wCurrOf (a :: rest) a.date)
        (wPrevOf (a :: rest) pa.date) = true ∧
      stateNeedsAdjustment
        (_classify_weekly_rate (rawWeeklyRate (a :: rest) a.date pa.date)).1 = true
    · exact Or.inl (buildResult_suppressed (a :: rest) plan a pa
        hmain.1 hmain.2).2.2.1
    · by_cases hst : stateNeedsAdjustment
          (_classify_weekly_rate (rawWeeklyRate (a :: rest) a.date pa.date)).1 = true
      · exact Or.inr (buildResult_populated (a :: rest) plan a pa hmain hst
          (classify_adj_nonzero _ hst)).1
      · have hst' : stateNeedsAdjustment
            (_classify_weekly_rate (rawWeeklyRate (a :: rest) a.date pa.date)).1 = false := by
          revert hst
          cases stateNeedsAdjustment
            (_classify_weekly_rate (rawWeeklyRate (a :: rest) a.date pa.date)).1 <;> simp
        exact Or.inl (buildResult_no_adjustment (a :: rest) plan a pa hst').2.2.1
  · by_cases hmain : alreadyAdjustedFlag plan (wCurrOf (a :: rest) a.date)
        (wPrevOf (a :: rest) pa.date) = true ∧
      stateNeedsAdjustment
        (_classify_weekly_rate (rawWeeklyRate (a :: rest) a.date pa.date)).1 = true
    · exact Or.inl (buildResult_suppressed (a :: rest) plan a pa
        hmain.1 hmain.2).2.2.2.1
    · by_cases hst : stateNeedsAdjustment
          (_classify_weekly_rate (rawWeeklyRate (a :: rest) a.date pa.date)).1 = true
      · exact Or.inr (buildResult_populated (a :: rest) plan a pa hmain hst
          (classify_adj_nonzero _ hst)).2.1
      · have hst' : stateNeedsAdjustment
            (_classify_weekly_rate (rawWeeklyRate (a :: rest) a.date pa.date)).1 = false := by
          revert hst
          cases stateNeedsAdjustment
            (_classify_weekly_rate (rawWeeklyRate (a :: rest) a.date pa.date)).1 <;> simp
        exact Or.inl (buildResult_no_adjustment (a :: rest) plan a pa hst').2.2.2.1

/-- Witness for C8 on the concrete two-log data set (no measurements, so
neither stop condition fires). -/
theorem stop_conditions_spec_witness :
    ((buildResult logsPair none (exLog 20 75) (exLog 10 75)).suggest_cutting = true ↔
      ((∃ cw pw ca pa2,
        firstWaistIn (inCurrWindow ((exLog 20 75).date - WINDOW_DAYS)) logsPair = some cw ∧
        firstWaistIn (inPrevWindow ((exLog 10 75).date - WINDOW_DAYS) (exLog 10 75).date) logsPair
          = some pw ∧
        firstArmIn (inCurrWindow ((exLog 20 75).date - WINDOW_DAYS)) logsPair = some ca ∧
        firstArmIn (inPrevWindow ((exLog 10 75).date - WINDOW_DAYS) (exLog 10 75).date) logsPair
          = some pa2 ∧
        cw - pw > WAIST_GROWTH_THRESHOLD_CM ∧
        ca - pa2 ≤ ARM_GROWTH_THRESHOLD_CM) ∨
      (∃ bf, _get_latest_body_fat logsPair = some bf ∧
        bf > BODY_FAT_CEILING_PERCENT))) ∧
    (buildResult logsPair none (exLog 20 75) (exLog 10 75)).analysis_state =
      (_classify_weekly_rate
        (rawWeeklyRate logsPair (exLog 20 75).date (exLog 10 75).date)).1 ∧
    ((buildResult logsPair none (exLog 20 75) (exLog 10 75)).suggested_calorie_adjustment = none ∨
      (buildResult logsPair none (exLog 20 75) (exLog 10 75)).suggested_calorie_adjustment
        = some (round1 ((_classify_weekly_rate
          (rawWeeklyRate logsPair (exLog 20 75).date (exLog 10 75).date)).2.2.1))) ∧
    ((buildResult logsPair none (exLog 20 75) (exLog 10 75)).suggested_carb_adjustment_g = none ∨
      (buildResult logsPair none (exLog 20 75) (exLog 10 75)).suggested_carb_adjustment_g
        = some (round1 ((_classify_weekly_rate
          (rawWeeklyRate logsPair (exLog 20 75).date (exLog 10 75).date)).2.2.2))) :=
  stop_conditions_spec logsPair none
    (buildResult logsPair none (exLog 20 75) (exLog 10 75))
    (exLog 20 75) (exLog 10 75) rfl rfl rfl

/-- Counterexample to C8 as literally stated: with a previous-window log
whose contracted-right arm is `0.0` (non-null) and relaxed-right is
`29.95`, the claim's procedure takes the first non-null arm value `0.0`,
giving `arm_change = 30 > 0.1` so check (a) must not fire, and no body-fat
reading exists — yet the code (Python `or` discards the falsy `0.0` and
uses `29.95`, giving `arm_change = 0.05 ≤ 0.1`) reports
`suggest_cutting = true`. -/
theorem stop_conditions_counterexample :
    (check_stagnation logsC none).map (·.suggest_cutting) = .ok true ∧
    claimFirstArmIn (inCurrWindow ((20 : ℤ) - WINDOW_DAYS)) logsC = some 30 ∧
    claimFirstArmIn (inPrevWindow ((10 : ℤ) - WINDOW_DAYS) 10) logsC = some 0 ∧
    firstWaistIn (inCurrWindow ((20 : ℤ) - WINDOW_DAYS)) logsC = some 90 ∧
    firstWaistIn (inPrevWindow ((10 : ℤ) - WINDOW_DAYS) 10) logsC = some 89 ∧
    ¬((30 : ℚ) - 0 ≤ ARM_GROWTH_THRESHOLD_CM) ∧
    _get_latest_body_fat logsC = none := by
  refine ⟨?_, ?_, ?_, ?_, ?_,
    by norm_num [ARM_GROWTH_THRESHOLD_CM], ?_⟩
  · have hc : check_stagnation logsC none =
        .ok (buildResult logsC none logC1 logC2) := rfl
    rw [hc]
    have hcut : (buildResult logsC none logC1 logC2).suggest_cutting = true := by
      rw [buildResult_cutting]
      have hwa : waistArmStop logsC (logC1.date - WINDOW_DAYS)
          (logC2.date - WINDOW_DAYS) logC2.date = true := by
        rw [waistArmStop_iff]
        refine ⟨90, 89, 30, 29.95, ?_, ?_, ?_, ?_, ?_, ?_⟩ <;>
          norm_num [firstWaistIn, firstArmIn, inCurrWindow, inPrevWindow,
            logsC, logC1, logC2, pyOr, WINDOW_DAYS,
            WAIST_GROWTH_THRESHOLD_CM, ARM_GROWTH_THRESHOLD_CM]
      rw [hwa]
      rfl
    rw [show (Except.map (·.suggest_cutting)
        (Except.ok (buildResult logsC none logC1 logC2)) :
        Except CoachError Bool) =
      .ok (buildResult logsC none logC1 logC2).suggest_cutting from rfl, hcut]
  · norm_num [claimFirstArmIn, claimArmValue, inCurrWindow, logsC, logC1,
      logC2, WINDOW_DAYS]
  · norm_num [claimFirstArmIn, claimArmValue, inCurrWindow, inPrevWindow,
      logsC, logC1, logC2, WINDOW_DAYS]
  · norm_num [firstWaistIn, inCurrWindow, logsC, logC1, logC2, WINDOW_DAYS]
  · norm_num [firstWaistIn, inCurrWindow, inPrevWindow, logsC, logC1,
      logC2, WINDOW_DAYS]
  · norm_num [_get_latest_body_fat, logsC, logC1, logC2]

/-- Claim C6. `check_stagnation` fails with `InsufficientData` iff fewer than
2 logs were fetched; it fails with `InsufficientPriorData` iff at least 2
logs exist but none is dated strictly before `t_curr − 6` days (given the
date-descending order, exactly when every fetched log lies inside the
current closed 7-day window); and these are its only failure outcomes.
(The embedding of analyze is a pure function of the fetched data, so it is
deterministic and modifies no stored state.) -/
theorem analyze_error_conditions (logs : List BodyLog) (plan : Option DietPlan) :
    (check_stagnation logs plan = .error .insufficientData ↔ logs.length < 2) ∧
    (check_stagnation logs plan = .error .insufficientPriorData ↔
      2 ≤ logs.length ∧
        ∀ l ∈ logs, ¬ l.date < anchorDateOf logs - WINDOW_DAYS) ∧
    (List.Pairwise (fun a b => b.date ≤ a.date) logs → 2 ≤ logs.length →
      ((∀ l ∈ logs, ¬ l.date < anchorDateOf logs - WINDOW_DAYS) ↔
        ∀ l ∈ logs, anchorDateOf logs - WINDOW_DAYS ≤ l.date ∧
          l.date ≤ anchorDateOf logs)) ∧
    (∀ e, check_stagnation logs plan = .error e →
      e = .insufficientData ∨ e = .insufficientPriorData) := by
  by_cases hlen : logs.length < 2
  · refine ⟨by simp [check_stagnation, hlen], ?_, ?_, ?_⟩
    · simp only [check_stagnation, if_pos hlen]
      constructor
      · intro h
        exact absurd h (by simp)
      · intro ⟨h2, _⟩
        omega
    · intro _ h2
      omega
    · intro e h
      simp only [check_stagnation, if_pos hlen] at h
      left
      exact ((Except.error.injEq _ _).mp h).symm
  · match logs with
    | [] => simp at hlen
    | anchor :: rest =>
      have hadate : anchorDateOf (anchor :: rest) = anchor.date := rfl
      cases hfind : findPrevAnchor (anchor :: rest) (anchor.date - WINDOW_DAYS) with
      | none =>
        have hnone := List.find?_eq_none.mp hfind
        refine ⟨?_, ?_, ?_, ?_⟩
        · simp only [check_stagnation, if_neg hlen, hfind]
          constructor
          · intro h
            exact absurd h (by simp)
          · intro h
            omega
        · simp only [check_stagnation, if_neg hlen, hfind, hadate]
          constructor
          · intro _
            refine ⟨by omega, ?_⟩
            intro l hl
            have := hnone l hl
            simpa using this
          · intro _
            first
            | rfl
            | trivial
        · intro hsorted _
          rw [hadate]
          constructor
          · intro h l hl
            refine ⟨by have := h l hl; omega, ?_⟩
            rcases List.mem_cons.mp hl with h0 | h0
            · subst h0
              omega
            · exact (List.pairwise_cons.mp hsorted).1 l h0
          · intro h l hl
            have := (h l hl).1
            omega
        · intro e h
          simp only [check_stagnation, if_neg hlen, hfind] at h
          right
          exact ((Except.error.injEq _ _).mp h).symm
      | some prev =>
        have hmem := List.mem_of_find?_eq_some hfind
        have hpred := List.find?_some hfind
        simp only [decide_eq_true_eq] at hpred
        refine ⟨?_, ?_, ?_, ?_⟩
        · simp only [check_stagnation, if_neg hlen, hfind]
          constructor
          · intro h
            exact absurd h (by simp)
          · intro h
            omega
        · simp only [check_stagnation, if_neg hlen, hfind, hadate]
          constructor
          · intro h
            exact absurd h (by simp)
          · intro ⟨_, hall⟩
            exact absurd hpred (hall prev hmem)
        · intro hsorted _
          rw [hadate]
          constructor
          · intro h l hl
            refine ⟨by have := h l hl; omega, ?_⟩
            rcases List.mem_cons.mp hl with h0 | h0
            · subst h0
              omega
            · exact (List.pairwise_cons.mp hsorted).1 l h0
          · intro h l hl
            have := (h l hl).1
            omega
        · intro e h
          simp only [check_stagnation, if_neg hlen, hfind] at h
          exact absurd h (by simp)

/-- Witness for C6: two logs eight days apart analyze without error, and a
single log fails with `InsufficientData`. -/
theorem analyze_error_conditions_witness :
    check_stagnation [⟨10, 75, none, none, none, none, none, none, none, none, none, none, none⟩]
      none = .error .insufficientData :=
  (analyze_error_conditions
    [⟨10, 75, none, none, none, none, none, none, none, none, none, none, none⟩]
    none).1.mpr (by decide)

/-! ## C7: frame conditions of apply and dismiss -/

/-- Claim C7. `dismiss` fails with `NoActivePlan` when no plan is active and
otherwise writes exactly the fingerprint (timestamp, `round(w_curr, 2)`,
`round(w_prev, 2)`), leaving the targets and every other plan field
unchanged; `apply` fails with `NoActivePlan` when no plan is active and
otherwise sets `target_calories`/`target_carbs` to `round(old + Δ, 1)`,
writes the same rounded fingerprint plus the current anchor date (the date
of the most recent body log), and mutates nothing else. -/
theorem apply_dismiss_frame (w_curr w_prev ca cg : ℚ) (now : ℤ)
    (logs : List BodyLog) (plan : DietPlan) (anchor : BodyLog)
    (hhead : logs.head? = some anchor) :
    dismiss_suggestion none w_curr w_prev now = .error .noActivePlan ∧
    apply_suggestion none ca cg w_curr w_prev now logs = .error .noActivePlan ∧
    dismiss_suggestion (some plan) w_curr w_prev now =
      .ok { plan with
        last_coach_adjustment_at := some now
        last_coach_w_curr := some (round2 w_curr)
        last_coach_w_prev := some (round2 w_prev) } ∧
    apply_suggestion (some plan) ca cg w_curr w_prev now logs =
      .ok { plan with
        target_calories := round1 (plan.target_calories + ca)
        target_carbs := round1 (plan.target_carbs + cg)
        last_coach_adjustment_at := some now
        last_coach_w_curr := some (round2 w_curr)
        last_coach_w_prev := some (round2 w_prev)
        last_coach_anchor_date := some anchor.date } := by
  refine ⟨rfl, rfl, rfl, ?_⟩
  unfold apply_suggestion
  rw [hhead]

/-- Witness for C7 at a concrete plan, log list and suggestion. -/
theorem apply_dismiss_frame_witness :
    dismiss_suggestion none 75 74 0 = .error .noActivePlan ∧
    apply_suggestion none 250 62.5 75 74 0
      [⟨20, 75, none, none, none, none, none, none, none, none, none, none, none⟩] =
      .error .noActivePlan ∧
    dismiss_suggestion
      (some { target_calories := 3000, target_carbs := 400 }) 75 74 0 =
      .ok { target_calories := 3000
            target_carbs := 400
            last_coach_adjustment_at := some 0
            last_coach_w_curr := some (round2 75)
            last_coach_w_prev := some (round2 74) } ∧
    apply_suggestion
      (some { target_calories := 3000, target_carbs := 400 }) 250 62.5 75 74 0
      [⟨20, 75, none, none, none, none, none, none, none, none, none, none, none⟩] =
      .ok { target_calories := round1 (3000 + 250)
            target_carbs := round1 (400 + 62.5)
            last_coach_adjustment_at := some 0
            last_coach_w_curr := some (round2 75)
            last_coach_w_prev := some (round2 74)
            last_coach_anchor_date := some 20 } :=
  apply_dismiss_frame 75 74 250 62.5 0
    [⟨20, 75, none, none, none, none, none, none, none, none, none, none, none⟩]
    { target_calories := 3000, target_carbs := 400 }
    ⟨20, 75, none, none, none, none, none, none, none, none, none, none, none⟩ rfl

/-! ## C3: apply-then-analyze round trip -/

/-- Claim C3. (amended: when the data change lands the fresh rate in the
optimal band, the second analyze is fresh and non-suppressed but carries no
suggested numbers.)  After a successful analyze in an adjustment state,
applying the suggestion with the analysis's reported `w_curr`/`w_prev` and
re-analyzing the unchanged logs yields `is_stagnating = false`, the
"already handled" message and no suggested numbers; re-analyzing changed
logs whose rounded window averages differ from the fingerprint yields a
fresh, non-suppressed result: the fresh classifier message, `is_stagnating`
per the fresh state, suggested numbers exactly when the fresh state
requires adjustment, and no numbers when it is `optimal`. -/
theorem apply_then_analyze_spec (logs logs2 : List BodyLog) (p p1 : DietPlan)
    (res1 : AnalysisResult) (anchor pa : BodyLog) (ca cg : ℚ) (now : ℤ)
    (hhead : logs.head? = some anchor)
    (hfind : findPrevAnchor logs (anchor.date - WINDOW_DAYS) = some pa)
    (h1 : check_stagnation logs (some p) = .ok res1)
    (hst : stateNeedsAdjustment res1.analysis_state = true)
    (happly : apply_suggestion (some p) ca cg res1.current_week_avg_weight
      res1.previous_week_avg_weight now logs = .ok p1) :
    (∀ res2, check_stagnation logs (some p1) = .ok res2 →
      res2.is_stagnating = false ∧ res2.message = .alreadyAdjusted ∧
      res2.suggested_calorie_adjustment = none ∧
      res2.suggested_carb_adjustment_g = none ∧
      res2.suggested_calories = none ∧ res2.suggested_carbs_g = none ∧
      res2.new_target_calories = none ∧ res2.new_target_carbs = none) ∧
    (∀ res3 anchor2 pa2, logs2.head? = some anchor2 →
      findPrevAnchor logs2 (anchor2.date - WINDOW_DAYS) = some pa2 →
      check_stagnation logs2 (some p1) = .ok res3 →
      (round2 (wCurrOf logs2 anchor2.date) ≠ round2 (wCurrOf logs anchor.date) ∨
        round2 (wPrevOf logs2 pa2.date) ≠ round2 (wPrevOf logs pa.date)) →
      res3.message = .classified
        (_classify_weekly_rate (rawWeeklyRate logs2 anchor2.date pa2.date)).1 ∧
      res3.is_stagnating = stateNeedsAdjustment
        (_classify_weekly_rate (rawWeeklyRate logs2 anchor2.date pa2.date)).1 ∧
      (stateNeedsAdjustment
          (_classify_weekly_rate (rawWeeklyRate logs2 anchor2.date pa2.date)).1 = true →
        res3.suggested_calorie_adjustment = some (round1
          ((_classify_weekly_rate (rawWeeklyRate logs2 anchor2.date pa2.date)).2.2.1)) ∧
        res3.suggested_carb_adjustment_g = some (round1
          ((_classify_weekly_rate (rawWeeklyRate logs2 anchor2.date pa2.date)).2.2.2))) ∧
      ((_classify_weekly_rate (rawWeeklyRate logs2 anchor2.date pa2.date)).1 =
          .optimal →
        res3.suggested_calorie_adjustment = none ∧
        res3.suggested_carb_adjustment_g = none)) := by
  obtain ⟨a, rest, q, heq, hlen, hfind2, hres1⟩ := check_ok_destruct h1
  subst heq
  have ha : a = anchor := by simpa using hhead
  subst ha
  have hq : q = pa := by
    rw [hfind2] at hfind
    exact Option.some.inj hfind
  subst hq
  subst hres1
  have hcore := buildResult_core (a :: rest) (some p) a q
  unfold apply_suggestion at happly
  rw [List.head?_cons] at happly
  dsimp only at happly
  have hp1 := Except.ok.inj happly
  have hts1 : p1.last_coach_adjustment_at = some now := by
    rw [← hp1]
  have hwc1 : p1.last_coach_w_curr =
      some (round2 (buildResult (a :: rest) (some p) a q).current_week_avg_weight) := by
    rw [← hp1]
  have hwp1 : p1.last_coach_w_prev =
      some (round2 (buildResult (a :: rest) (some p) a q).previous_week_avg_weight) := by
    rw [← hp1]
  constructor
  · intro res2 h2
    obtain ⟨a2, rest2, q2, heq2, hlen2, hfind22, hres2⟩ := check_ok_destruct h2
    injection heq2 with ha2 hrest2
    subst ha2
    subst hrest2
    have hq2 : q = q2 := by
      rw [hfind2] at hfind22
      exact Option.some.inj hfind22
    subst hq2
    subst hres2
    have haa : alreadyAdjustedFlag
        (some p1) (wCurrOf (a :: rest) a.date) (wPrevOf (a :: rest) q.date) = true := by
      rw [alreadyAdjustedFlag_some p1 now _ _ _ _ hts1 hwc1 hwp1]
      rw [hcore.1, hcore.2.1]
      simp only [roundTo_roundTo]
      simp
    have hneeds : stateNeedsAdjustment
        (_classify_weekly_rate (rawWeeklyRate (a :: rest) a.date q.date)).1 = true := by
      rw [← hcore.2.2.2.2.2.2]
      exact hst
    have hs := buildResult_suppressed (a :: rest) (some p1) a q haa hneeds
    exact ⟨hs.1, hs.2.1, hs.2.2.1, hs.2.2.2.1, hs.2.2.2.2.2.2.2.2.2.2.2,
      hs.2.2.2.2.2.2.2.2.1, hs.2.2.2.2.1, hs.2.2.2.2.2.1⟩
  · intro res3 a2 q2 hhead2 hfind3 h3 hdiff
    obtain ⟨a3, rest3, q3, heq3, hlen3, hfind32, hres3⟩ := check_ok_destruct h3
    subst heq3
    have ha3 : a3 = a2 := by simpa using hhead2
    subst ha3
    have hq3 : q3 = q2 := by
      rw [hfind32] at hfind3
      exact Option.some.inj hfind3
    subst hq3
    subst hres3
    have haa : alreadyAdjustedFlag
        (some p1) (wCurrOf (a3 :: rest3) a3.date) (wPrevOf (a3 :: rest3) q3.date)
          = false := by
      rw [alreadyAdjustedFlag_some p1 now _ _ _ _ hts1 hwc1 hwp1]
      rw [hcore.1, hcore.2.1]
      simp only [roundTo_roundTo]
      rcases hdiff with hd | hd
      · simp [hd]
      · simp [hd]
    have hnot : ¬(alreadyAdjustedFlag (some p1)
        (wCurrOf (a3 :: rest3) a3.date) (wPrevOf (a3 :: rest3) q3.date) = true ∧
      stateNeedsAdjustment
        (_classify_weekly_rate (rawWeeklyRate (a3 :: rest3) a3.date q3.date)).1
          = true) := by
      intro ⟨hc, _⟩
      rw [haa] at hc
      exact absurd hc (by simp)
    have hf := buildResult_fresh (a3 :: rest3) (some p1) a3 q3 hnot
    refine ⟨hf.1, hf.2, ?_, ?_⟩
    · intro hst3
      have hp := buildResult_populated (a3 :: rest3) (some p1) a3 q3 hnot hst3
        (classify_adj_nonzero _ hst3)
      exact ⟨hp.1, hp.2.1⟩
    · intro hopt
      have hst3' : stateNeedsAdjustment
          (_classify_weekly_rate (rawWeeklyRate (a3 :: rest3) a3.date q3.date)).1
            = false := by
        rw [hopt]
        rfl
      have hn := buildResult_no_adjustment (a3 :: rest3) (some p1) a3 q3 hst3'
      exact ⟨hn.2.2.1, hn.2.2.2.1⟩

/-- Witness for C3: on the concrete data set, analyze → apply (with the
reported averages) → analyze suppresses the repeat suggestion. -/
theorem apply_then_analyze_spec_witness :
    (buildResult logsPair (some p1W) (exLog 20 75) (exLog 10 75)).is_stagnating
      = false ∧
    (buildResult logsPair (some p1W) (exLog 20 75) (exLog 10 75)).message
      = .alreadyAdjusted ∧
    (buildResult logsPair (some p1W) (exLog 20 75) (exLog 10 75)).suggested_calorie_adjustment = none ∧
    (buildResult logsPair (some p1W) (exLog 20 75) (exLog 10 75)).suggested_carb_adjustment_g = none ∧
    (buildResult logsPair (some p1W) (exLog 20 75) (exLog 10 75)).suggested_calories = none ∧
    (buildResult logsPair (some p1W) (exLog 20 75) (exLog 10 75)).suggested_carbs_g = none ∧
    (buildResult logsPair (some p1W) (exLog 20 75) (exLog 10 75)).new_target_calories = none ∧
    (buildResult logsPair (some p1W) (exLog 20 75) (exLog 10 75)).new_target_carbs = none := by
  have hw : wCurrOf logsPair (exLog 20 75).date = 75 := by
    norm_num [wCurrOf, currWindowLogs, listMean, logsPair, exLog, WINDOW_DAYS]
  have hp : wPrevOf logsPair (exLog 10 75).date = 75 := by
    norm_num [wPrevOf, prevWindowLogs, listMean, logsPair, exLog, WINDOW_DAYS]
  have hr : rawWeeklyRate logsPair (exLog 20 75).date (exLog 10 75).date = 0 := by
    norm_num [rawWeeklyRate, hw, hp]
  have hcl : _classify_weekly_rate 0 =
      (.slow_gain, .classified .slow_gain, 250, 62.5) := by
    norm_num [_classify_weekly_rate, RATE_MIN_FLOOR]
  have hstW : stateNeedsAdjustment
      (buildResult logsPair (some planStart) (exLog 20 75)
        (exLog 10 75)).analysis_state = true := by
    rw [(buildResult_core logsPair (some planStart) (exLog 20 75)
      (exLog 10 75)).2.2.2.2.2.2, hr, hcl]
    rfl
  exact (apply_then_analyze_spec logsPair logsPair planStart p1W
    (buildResult logsPair (some planStart) (exLog 20 75) (exLog 10 75))
    (exLog 20 75) (exLog 10 75) 250 62.5 30 rfl rfl rfl hstW rfl).1
    (buildResult logsPair (some p1W) (exLog 20 75) (exLog 10 75)) rfl

/-- Counterexample to C3 as literally stated: after analyze (state
`slow_gain`, suggestion +250) and apply, inserting a log that changes the
rounded current-window average (75 → 75.5) makes the second analyze land
in the `optimal` band: the result is fresh and non-suppressed, but it is
not "a suggestion" — every suggested number is absent. -/
theorem apply_then_analyze_counterexample :
    (check_stagnation logsPair (some planStart)).map
      (fun r => (r.analysis_state, r.suggested_calorie_adjustment,
        r.current_week_avg_weight, r.previous_week_avg_weight)) =
      .ok (.slow_gain, some 250, 75, 75) ∧
    apply_suggestion (some planStart) 250 62.5 75 75 30 logsPair =
      .ok planApplied ∧
    round2 (wCurrOf logsB (exLog 21 76).date) ≠
      round2 (wCurrOf logsPair (exLog 20 75).date) ∧
    (check_stagnation logsB (some planApplied)).map
      (fun r => (r.message, r.is_stagnating, r.suggested_calorie_adjustment,
        r.suggested_carbs_g)) =
      .ok (.classified .optimal, false, none, none) := by
  have hw : wCurrOf logsPair (exLog 20 75).date = 75 := by
    norm_num [wCurrOf, currWindowLogs, listMean, logsPair, exLog, WINDOW_DAYS]
  have hp : wPrevOf logsPair (exLog 10 75).date = 75 := by
    norm_num [wPrevOf, prevWindowLogs, listMean, logsPair, exLog, WINDOW_DAYS]
  have hr : rawWeeklyRate logsPair (exLog 20 75).date (exLog 10 75).date = 0 := by
    norm_num [rawWeeklyRate, hw, hp]
  have hcl : _classify_weekly_rate 0 =
      (.slow_gain, .classified .slow_gain, 250, 62.5) := by
    norm_num [_classify_weekly_rate, RATE_MIN_FLOOR]
  have hwB : wCurrOf logsB (exLog 21 76).date = 75.5 := by
    norm_num [wCurrOf, currWindowLogs, listMean, logsB, logsPair, exLog,
      WINDOW_DAYS]
  refine ⟨?_, rfl, ?_, ?_⟩
  · have e1 : check_stagnation logsPair (some planStart) =
        .ok (buildResult logsPair (some planStart) (exLog 20 75) (exLog 10 75)) := rfl
    have hc := buildResult_core logsPair (some planStart) (exLog 20 75) (exLog 10 75)
    have hflag : alreadyAdjustedFlag (some planStart)
        (wCurrOf logsPair (exLog 20 75).date)
        (wPrevOf logsPair (exLog 10 75).date) = false := rfl
    have hnot : ¬(alreadyAdjustedFlag (some planStart)
        (wCurrOf logsPair (exLog 20 75).date)
        (wPrevOf logsPair (exLog 10 75).date) = true ∧
      stateNeedsAdjustment (_classify_weekly_rate
        (rawWeeklyRate logsPair (exLog 20 75).date (exLog 10 75).date)).1 = true) := by
      intro ⟨hcond, _⟩
      rw [hflag] at hcond
      exact absurd hcond (by simp)
    have hneeds : stateNeedsAdjustment (_classify_weekly_rate
        (rawWeeklyRate logsPair (exLog 20 75).date (exLog 10 75).date)).1 = true := by
      rw [hr, hcl]
      rfl
    have hca : (_classify_weekly_rate
        (rawWeeklyRate logsPair (exLog 20 75).date (exLog 10 75).date)).2.2.1 ≠ 0 := by
      rw [hr, hcl]
      norm_num
    have hst : (buildResult logsPair (some planStart) (exLog 20 75)
        (exLog 10 75)).analysis_state = .slow_gain := by
      rw [hc.2.2.2.2.2.2, hr, hcl]
    have hsca : (buildResult logsPair (some planStart) (exLog 20 75)
        (exLog 10 75)).suggested_calorie_adjustment = some 250 := by
      rw [(buildResult_populated logsPair (some planStart) (exLog 20 75)
        (exLog 10 75) hnot hneeds hca).1, hr, hcl]
      exact congrArg some (roundTo_eq_self 1 250 2500 (by norm_num))
    have hcw : (buildResult logsPair (some planStart) (exLog 20 75)
        (exLog 10 75)).current_week_avg_weight = 75 := by
      rw [hc.1, hw]
      exact roundTo_eq_self 2 75 7500 (by norm_num)
    have hpw : (buildResult logsPair (some planStart) (exLog 20 75)
        (exLog 10 75)).previous_week_avg_weight = 75 := by
      rw [hc.2.1, hp]
      exact roundTo_eq_self 2 75 7500 (by norm_num)
    rw [e1]
    simp [Except.map, hst, hsca, hcw, hpw]
  · have h1 : round2 (75.5 : ℚ) = 75.5 := roundTo_eq_self 2 75.5 7550 (by norm_num)
    have h2 : round2 (75 : ℚ) = 75 := roundTo_eq_self 2 75 7500 (by norm_num)
    rw [hwB, hw, h1, h2]
    norm_num
  · have e2 : check_stagnation logsB (some planApplied) =
        .ok (buildResult logsB (some planApplied) (exLog 21 76) (exLog 10 75)) := rfl
    have hpB : wPrevOf logsB (exLog 10 75).date = 75 := by
      norm_num [wPrevOf, prevWindowLogs, listMean, logsB, logsPair, exLog,
        WINDOW_DAYS]
    have hrB : rawWeeklyRate logsB (exLog 21 76).date (exLog 10 75).date = 7/22 := by
      unfold rawWeeklyRate weeksElapsed
      rw [hwB, hpB]
      rw [show (((((exLog 21 76).date - (exLog 10 75).date : ℤ)) : ℚ) / 7) = 11/7 by
        norm_num [exLog]]
      rw [max_eq_left (by norm_num : (1 : ℚ) ≤ 11/7)]
      norm_num
    have hclB : _classify_weekly_rate (7/22) =
        (.optimal, .classified .optimal, 0, 0) := by
      norm_num [_classify_weekly_rate, RATE_MIN_FLOOR, RATE_MAX_CEILING]
    have hneedsB : stateNeedsAdjustment (_classify_weekly_rate
        (rawWeeklyRate logsB (exLog 21 76).date (exLog 10 75).date)).1 = false := by
      rw [hrB, hclB]
      rfl
    have hn := buildResult_no_adjustment logsB (some planApplied) (exLog 21 76)
      (exLog 10 75) hneedsB
    have hmsg : (buildResult logsB (some planApplied) (exLog 21 76)
        (exLog 10 75)).message = .classified .optimal := by
      rw [hn.2.1, hrB, hclB]
    rw [e2]
    simp [Except.map, hmsg, hn.1, hn.2.2.1, hn.2.2.2.2.2.2.2]

end DietCoach
